import Mathlib

/-! # MotionExtractionWindow (EMotion Studio) and MotionEvent (AnimationBus.h)

A shallow embedding of the selection-to-UI reconciliation (`UpdateInterface`), the
command-batch construction (`OnMotionExtractionFlagsUpdated`,
`OnMotionExtractionNodeSelected`) and the command callbacks of `MotionExtractionWindow.cpp`,
and of the `MotionEvent` descriptor of `AnimationBus.h` (constructors and
`SetParameterString`).

Conventions of the embedding.

* A C++ pointer member is a `Ptr`: null, pointing at a live object (whose state is stored with
  the pointer, every object below being owned through exactly one member), or dangling
  (non-null, but the object was handed to `deleteLater`, or the member was never initialised).
  Dereferencing a null or dangling pointer is undefined behaviour; operations that do so
  return `none`.
* `uint32` values are natural numbers; where the code can wrap, the model reduces mod `2^32`.
* Qt widgets are reduced to the properties the window reads or writes.
-/

namespace EMStudio

/-! ## Pointers and Qt widgets -/

/-- A pointer member: `nullptr`, a live object, or a non-null pointer to no live object. -/
inductive Ptr (α : Type) where
  | null : Ptr α
  | live (obj : α) : Ptr α
  | dangling : Ptr α
  deriving DecidableEq, Repr

/-- Whether the pointer refers to an object that has not been released. -/
def Ptr.isLive {α : Type} : Ptr α → Bool
  | .live _ => true
  | _ => false

/-- The `Qt::CheckState` enumeration. -/
inductive CheckState where
  | Unchecked
  | PartiallyChecked
  | Checked
  deriving DecidableEq, Repr

/-- The state of a `QCheckBox` (Qt 5): `checked` is the `QAbstractButton` flag, `noChange` the
private flag that, together with `tristate`, stands for the partially-checked state. -/
structure QCheckBox where
  text : String
  enabled : Bool
  tristate : Bool
  noChange : Bool
  checked : Bool
  deriving DecidableEq, Repr

/-- The object made by `new QCheckBox(text)`: enabled, two-state, unchecked. -/
def QCheckBox.new (text : String) : QCheckBox :=
  { text := text, enabled := true, tristate := false, noChange := false, checked := false }

/-- Embeds `QCheckBox::checkState()`. -/
def QCheckBox.checkState (c : QCheckBox) : CheckState :=
  if c.tristate && c.noChange then CheckState.PartiallyChecked
  else if c.checked then CheckState.Checked else CheckState.Unchecked

/-- Embeds `QWidget::setEnabled`. -/
def QCheckBox.setEnabled (c : QCheckBox) (e : Bool) : QCheckBox :=
  { c with enabled := e }

/-- Embeds `QCheckBox::setTristate`: only the tristate property changes. -/
def QCheckBox.setTristate (c : QCheckBox) (y : Bool) : QCheckBox :=
  { c with tristate := y }

/-- Embeds `QAbstractButton::setChecked` on a check box: sets the checked flag and, through
`checkStateSet`, clears the no-change flag. -/
def QCheckBox.setChecked (c : QCheckBox) (b : Bool) : QCheckBox :=
  { c with checked := b, noChange := false }

/-- Embeds `QCheckBox::setCheckState`: `PartiallyChecked` switches tristate on and sets the no-change
flag; the other two states clear the no-change flag; the button is checked unless the state is
`Unchecked`. -/
def QCheckBox.setCheckState (c : QCheckBox) (s : CheckState) : QCheckBox :=
  match s with
  | .PartiallyChecked => { c with tristate := true, noChange := true, checked := true }
  | .Checked => { c with noChange := false, checked := true }
  | .Unchecked => { c with noChange := false, checked := false }

/-- A `MysticQt::LinkWidget`: its caption and enabled state. -/
structure LinkWidget where
  text : String
  enabled : Bool
  deriving DecidableEq, Repr

/-- A plain container `QWidget` with the height bounds the window sets on it. -/
structure QWidget where
  minimumHeight : Nat
  maximumHeight : Nat
  deriving DecidableEq, Repr

/-- The main `QVBoxLayout` of the window. -/
structure QVBoxLayout where
  margin : Nat
  spacing : Nat
  deriving DecidableEq, Repr

/-! ## Domain objects read through the selection -/

/-- Modelled from the spec: the capture-height bit of `EMotionFX::EMotionExtractionFlags`
(declared in a header outside this file); the spec's command example renders the mask of a
checked box as `1`, and the flag is "the single bit of value 1". -/
def MOTIONEXTRACT_CAPTURE_Z : Nat := 1

/-- Modelled from the spec: the type id of the "skeletal" motion subtype,
`EMotionFX::SkeletalMotion::TYPE_ID` (declared in a header outside this file). Only equality
with this id is ever tested. -/
def SkeletalMotion.TYPE_ID : Nat := 1

/-- An `EMotionFX::Motion` as seen by the window: `GetID()` (a `uint32`), `GetType()` and
`GetMotionExtractionFlags()` (a bit mask). -/
structure Motion where
  mID : Nat
  mType : Nat
  mExtractionFlags : Nat
  deriving DecidableEq, Repr

/-- An `EMotionFX::Node`, identified by its name. -/
structure Node where
  name : String
  deriving DecidableEq, Repr

/-- An `EMotionFX::Actor`: `GetMotionExtractionNode()` may be `nullptr`. -/
structure Actor where
  motionExtractionNode : Option Node
  deriving DecidableEq, Repr

/-- An `EMotionFX::ActorInstance` with its id and its actor. -/
structure ActorInstance where
  mID : Nat
  actor : Actor
  deriving DecidableEq, Repr

/-- A `CommandSystem::SelectionList`: the selected motions in selection order, and the value
returned by `GetSingleActorInstance()` (`nullptr` unless a single actor instance is selected). -/
structure SelectionList where
  motions : List Motion
  singleActorInstance : Option ActorInstance
  deriving DecidableEq, Repr

/-- Embeds `SelectionList::GetNumSelectedMotions()` (a `uint32`; the selection array cannot hold
`2^32` motions). -/
def SelectionList.GetNumSelectedMotions (s : SelectionList) : Nat :=
  s.motions.length

/-- Embeds `SelectionList::GetMotion(i)`. -/
def SelectionList.GetMotion (s : SelectionList) (i : Nat) : Option Motion :=
  s.motions[i]?

/-- Embeds `SelectionList::GetSingleActorInstance()`. -/
def SelectionList.GetSingleActorInstance (s : SelectionList) : Option ActorInstance :=
  s.singleActorInstance

/-! ## printf-style formatting -/

/-- The `%i` conversion of `AZStd::string::format` applied to a 32-bit argument: the argument
is read as a signed `int`, so an unsigned value of `2^31` or more prints as the negative
two's-complement number. -/
def formatI (v : Nat) : String :=
  let u := v % 2 ^ 32
  if u < 2 ^ 31 then toString u else "-" ++ toString (2 ^ 32 - u)

/-! ## The window -/

/-- The members of `MotionExtractionWindow` that `UpdateInterface` and the slots use. The
command-callback pointers and the node selection window take no part in the panel logic and
are not represented. -/
structure MotionExtractionWindow where
  mMainVerticalLayout : Ptr QVBoxLayout
  mWarningWidget : Ptr QWidget
  mWarningSelectNodeLink : Ptr LinkWidget
  mFlagsWidget : Ptr QWidget
  mCaptureHeight : Ptr QCheckBox
  mWarningShowed : Bool
  deriving DecidableEq, Repr

/-- The `MOTIONEXTRACTIONWINDOW_HEIGHT` constant. -/
def MOTIONEXTRACTIONWINDOW_HEIGHT : Nat := 54

/-- An `MCore::CommandGroup`: its name and its command strings in insertion order. -/
structure CommandGroup where
  name : String
  commands : List String
  deriving DecidableEq, Repr

/-- Embeds `CommandGroup::AddCommandString`. -/
def CommandGroup.AddCommandString (g : CommandGroup) (c : String) : CommandGroup :=
  { g with commands := g.commands ++ [c] }

/-- Embeds `CommandGroup::GetNumCommands`. -/
def CommandGroup.GetNumCommands (g : CommandGroup) : Nat :=
  g.commands.length

/-- What a slot does to the world outside the window, in order. -/
inductive Effect where
  | logWarning (msg : String)
  | logError (msg : String)
  | executeCommandGroup (group : CommandGroup)
  deriving DecidableEq, Repr

/-- Embeds `MotionExtractionWindow::GetMotionExtractionFlags`: dereferences `mCaptureHeight`; the
capture-height bit is set exactly when the box reads `Checked`. -/
def GetMotionExtractionFlags (w : MotionExtractionWindow) : Option Nat :=
  match w.mCaptureHeight with
  | .live cb =>
    let flags := 0
    some (if cb.checkState = CheckState.Checked then flags ||| MOTIONEXTRACT_CAPTURE_Z else flags)
  | _ => none

/-- The text built by `AZStd::string::format("AdjustMotion -motionID %i
-motionExtractionFlags %i", motion->GetID(), extractionFlags)`. -/
def adjustMotionCommand (motionID extractionFlags : Nat) : String :=
  "AdjustMotion -motionID " ++ formatI motionID
    ++ " -motionExtractionFlags " ++ formatI extractionFlags

/-- The body of the loop over the selected motions in `OnMotionExtractionFlagsUpdated`:
non-skeletal motions are skipped, every other one adds its `AdjustMotion` command. -/
def addAdjustMotionCommand (selectionList : SelectionList) (extractionFlags : Nat)
    (commandGroup : CommandGroup) (i : Nat) : CommandGroup :=
  match selectionList.GetMotion i with
  | none => commandGroup
  | some motion =>
    if motion.mType ≠ SkeletalMotion.TYPE_ID then commandGroup
    else commandGroup.AddCommandString (adjustMotionCommand motion.mID extractionFlags)

/-- Embeds `MotionExtractionWindow::OnMotionExtractionFlagsUpdated`. The executor's answer to a
submitted group (success flag and result string) is the parameter `executor`. The result is
the window as the slot leaves it (it assigns no member) and the effects in order; `none`
stands for a null or dangling `mCaptureHeight` being dereferenced. The selection is only
read. -/
def OnMotionExtractionFlagsUpdated (executor : CommandGroup → Bool × String)
    (w : MotionExtractionWindow) (selectionList : SelectionList) :
    Option (MotionExtractionWindow × List Effect) :=
  let numSelectedMotions := selectionList.GetNumSelectedMotions
  match selectionList.GetSingleActorInstance with
  | none => some (w, [])
  | some actorInstance =>
    if numSelectedMotions = 0 then some (w, [])
    else
      match actorInstance.actor.motionExtractionNode with
      | none => some (w, [Effect.logWarning "Motion extraction node not set."])
      | some _ =>
        match GetMotionExtractionFlags w with
        | none => none
        | some extractionFlags =>
          let commandGroup : CommandGroup :=
            { name := "Adjust motion extraction settings", commands := [] }
          let commandGroup := commandGroup.AddCommandString "StopAllMotionInstances"
          let commandGroup := (List.range numSelectedMotions).foldl
            (addAdjustMotionCommand selectionList extractionFlags) commandGroup
          if commandGroup.GetNumCommands > 0 then
            let (ok, outResult) := executor commandGroup
            if ok = false ∧ outResult ≠ "" then
              some (w, [Effect.executeCommandGroup commandGroup, Effect.logError outResult])
            else
              some (w, [Effect.executeCommandGroup commandGroup])
          else some (w, [])

/-! ## Construction of the two layouts -/

/-- Embeds `MotionExtractionWindow::CreateFlagsWidget`: allocates the flags container and the
"Capture Height Changes" check box and adds the container to the main layout (which is
dereferenced). -/
def CreateFlagsWidget (w : MotionExtractionWindow) : Option MotionExtractionWindow :=
  match w.mMainVerticalLayout with
  | .live _ =>
    some { w with
      mFlagsWidget := .live { minimumHeight := MOTIONEXTRACTIONWINDOW_HEIGHT,
                              maximumHeight := MOTIONEXTRACTIONWINDOW_HEIGHT },
      mCaptureHeight := .live (QCheckBox.new "Capture Height Changes") }
  | _ => none

/-- Embeds `MotionExtractionWindow::CreateWarningWidget`: allocates the warning container and, as its
child, the link widget, and adds the container to the main layout (which is dereferenced). -/
def CreateWarningWidget (w : MotionExtractionWindow) : Option MotionExtractionWindow :=
  match w.mMainVerticalLayout with
  | .live _ =>
    some { w with
      mWarningWidget := .live { minimumHeight := MOTIONEXTRACTIONWINDOW_HEIGHT,
                                maximumHeight := MOTIONEXTRACTIONWINDOW_HEIGHT },
      mWarningSelectNodeLink :=
        .live { text := "Click here to setup the Motion Extraction node", enabled := true } }
  | _ => none

/-- The block `if (mFlagsWidget) { hide(); deleteLater(); mFlagsWidget = nullptr;
mCaptureHeight = nullptr; }` of the warning branch. -/
def releaseFlagsWidget (w : MotionExtractionWindow) : Option MotionExtractionWindow :=
  match w.mFlagsWidget with
  | .null => some w
  | .live _ => some { w with mFlagsWidget := .null, mCaptureHeight := .null }
  | .dangling => none

/-- The block `if (mWarningWidget) { hide(); deleteLater(); mWarningWidget = nullptr; }` of the
flags branch. The link widget is a child of the warning widget and is deleted with it, while
`mWarningSelectNodeLink` is left as it is: it dangles from here on. -/
def releaseWarningWidget (w : MotionExtractionWindow) : Option MotionExtractionWindow :=
  match w.mWarningWidget with
  | .null => some w
  | .live _ =>
    some { w with
      mWarningWidget := .null,
      mWarningSelectNodeLink :=
        match w.mWarningSelectNodeLink with
        | .null => .null
        | _ => .dangling }
  | .dangling => none

/-- The guarded `if (mCaptureHeight) mCaptureHeight->setEnabled(isEnabled);`. -/
def setCaptureHeightEnabled (w : MotionExtractionWindow) (isEnabled : Bool) :
    Option MotionExtractionWindow :=
  match w.mCaptureHeight with
  | .null => some w
  | .live cb => some { w with mCaptureHeight := .live (cb.setEnabled isEnabled) }
  | .dangling => none

/-! ## The scan over the selected motions -/

/-- The three locals the `for` loop of `UpdateInterface` updates. -/
structure CaptureHeightScan where
  allCaptureHeightEqual : Bool
  numCaptureHeight : Nat
  curCaptureHeight : Bool
  deriving DecidableEq, Repr

/-- One iteration of the loop, for index `i`. `curCaptureHeight` is the masked flag converted
to `bool`; in the comparison with the previous motion it is promoted back to an integer (0 or
1) and compared with the previous motion's masked flags. -/
def captureHeightStep (selectionList : SelectionList) (st : CaptureHeightScan) (i : Nat) :
    CaptureHeightScan :=
  match selectionList.GetMotion i with
  | none => st
  | some curMotion =>
    let prevMotion := if i > 0 then selectionList.GetMotion (i - 1) else none
    let curCaptureHeight : Bool :=
      decide ((curMotion.mExtractionFlags &&& MOTIONEXTRACT_CAPTURE_Z) ≠ 0)
    let numCaptureHeight :=
      if curCaptureHeight then (st.numCaptureHeight + 1) % 2 ^ 32 else st.numCaptureHeight
    let allCaptureHeightEqual :=
      match prevMotion with
      | none => st.allCaptureHeightEqual
      | some prev =>
        if (if curCaptureHeight then 1 else 0)
            ≠ (prev.mExtractionFlags &&& MOTIONEXTRACT_CAPTURE_Z) then false
        else st.allCaptureHeightEqual
    { allCaptureHeightEqual := allCaptureHeightEqual,
      numCaptureHeight := numCaptureHeight,
      curCaptureHeight := curCaptureHeight }

/-- The whole loop `for (uint32 i = 0; i < numMotions; ++i)`. -/
def captureHeightScan (selectionList : SelectionList) : CaptureHeightScan :=
  (List.range selectionList.GetNumSelectedMotions).foldl (captureHeightStep selectionList)
    { allCaptureHeightEqual := true, numCaptureHeight := 0, curCaptureHeight := false }

/-- What the tail of the flags branch of `UpdateInterface` does to the check box:
`setTristate`, then `setCheckState` or `setChecked` depending on the number of motions and the
outcome of the scan. -/
def adjustCheckBox (cb : QCheckBox) (numMotions : Nat) (scan : CaptureHeightScan) :
    QCheckBox :=
  let triState : Bool := decide (numMotions > 1) && !scan.allCaptureHeightEqual
  let cb := cb.setTristate triState
  if numMotions > 1 then
    if !scan.allCaptureHeightEqual then cb.setCheckState CheckState.PartiallyChecked
    else cb.setChecked scan.curCaptureHeight
  else
    if scan.numCaptureHeight > 0 then cb.setCheckState CheckState.Checked
    else cb.setCheckState CheckState.Unchecked

/-- The tail of the flags branch of `UpdateInterface`, from `setTristate` on: `mCaptureHeight`
is dereferenced without a check. -/
def adjustCaptureHeight (w : MotionExtractionWindow) (numMotions : Nat)
    (scan : CaptureHeightScan) : Option MotionExtractionWindow :=
  match w.mCaptureHeight with
  | .live cb => some { w with mCaptureHeight := .live (adjustCheckBox cb numMotions scan) }
  | _ => none

/-! ## UpdateInterface -/

/-- Embeds `MotionExtractionWindow::UpdateInterface`, against the current selection. The result is the
window after the call together with the window as it stood after each layout construction or
release the call performed, in order; `none` stands for a null or dangling pointer being
dereferenced. -/
def UpdateInterfaceTraced (w : MotionExtractionWindow) (selectionList : SelectionList) :
    Option (MotionExtractionWindow × List MotionExtractionWindow) := do
  let numSelectedMotions := selectionList.GetNumSelectedMotions
  let isEnabled : Bool := numSelectedMotions != 0
  let actorInstance := selectionList.GetSingleActorInstance
  let w ← setCaptureHeightEnabled w isEnabled
  let extractionNode : Option Node :=
    match actorInstance with
    | some a => a.actor.motionExtractionNode
    | none => none
  match extractionNode with
  | none =>
    let (w, steps) ←
      if w.mWarningShowed = false then do
        let w1 ← CreateWarningWidget w
        let w2 ← releaseFlagsWidget w1
        pure (w2, [w1, w2])
      else pure (w, [])
    match w.mWarningSelectNodeLink with
    | .live link =>
      let link := { link with enabled := actorInstance.isSome }
      pure ({ w with mWarningSelectNodeLink := .live link, mWarningShowed := true }, steps)
    | _ => none
  | some _ =>
    let (w, steps) ←
      if w.mWarningShowed then do
        let w1 ← releaseWarningWidget w
        let w2 ← CreateFlagsWidget w1
        pure (w2, [w1, w2])
      else pure (w, [])
    let w ← setCaptureHeightEnabled w isEnabled
    let numMotions := selectionList.GetNumSelectedMotions
    let scan := captureHeightScan selectionList
    let w ← adjustCaptureHeight w numMotions scan
    pure ({ w with mWarningShowed := false }, steps)

/-- Embeds `UpdateInterface`, keeping only the window after the call. -/
def UpdateInterface (w : MotionExtractionWindow) (selectionList : SelectionList) :
    Option MotionExtractionWindow :=
  (UpdateInterfaceTraced w selectionList).map Prod.fst

/-- The constructor: every pointer member it mentions is set to `nullptr` and
`mWarningShowed` to `false`. `mFlagsWidget` is not assigned; `flagsWidgetIsNull` says whether
the indeterminate value happens to be null. -/
def MotionExtractionWindow.construct (flagsWidgetIsNull : Bool) : MotionExtractionWindow :=
  { mMainVerticalLayout := .null,
    mWarningWidget := .null,
    mWarningSelectNodeLink := .null,
    mFlagsWidget := if flagsWidgetIsNull then .null else .dangling,
    mCaptureHeight := .null,
    mWarningShowed := false }

/-- Embeds `MotionExtractionWindow::Init`: creates the main layout, default-creates the warning
widget, sets `mWarningShowed` and runs `UpdateInterface`. -/
def Init (w : MotionExtractionWindow) (selectionList : SelectionList) :
    Option MotionExtractionWindow := do
  let w := { w with mMainVerticalLayout := .live { margin := 0, spacing := 0 } }
  let w ← CreateWarningWidget w
  let w := { w with mWarningShowed := true }
  UpdateInterface w selectionList

/-! ## Command callbacks -/

/-- An `MCore::CommandLine`: the parameters of an executed command, by name. -/
structure CommandLine where
  parameters : List (String × String)
  deriving DecidableEq, Repr

/-- What the callbacks reach through the global managers: the motion extraction window of the
active `MotionWindowPlugin` (`FindActivePlugin` may return `nullptr`) and the current
selection. -/
structure Studio where
  activeMotionExtractionWindow : Option MotionExtractionWindow
  currentSelection : SelectionList
  deriving DecidableEq, Repr

/-- The outcome of a callback: its return value, the world after it, and how many times it
ran `UpdateInterface`. -/
structure CallbackResult where
  result : Bool
  studio : Studio
  updateInterfaceCalls : Nat
  deriving DecidableEq, Repr

/-- Embeds `UpdateInterfaceMotionExtractionWindow`: `false` when the plugin is not active, otherwise
`UpdateInterface` on its window and `true`. -/
def UpdateInterfaceMotionExtractionWindow (s : Studio) : Option CallbackResult :=
  match s.activeMotionExtractionWindow with
  | none => some { result := false, studio := s, updateInterfaceCalls := 0 }
  | some motionExtractionWindow =>
    match UpdateInterface motionExtractionWindow s.currentSelection with
    | none => none
    | some w =>
      some { result := true,
             studio := { s with activeMotionExtractionWindow := some w },
             updateInterfaceCalls := 1 }

/-- Embeds `CommandSelectCallback::Execute`. `CommandSystem::CheckIfHasActorSelectionParameter` is
defined outside this file and is the parameter `checkIfHasActorSelectionParameter`. -/
def CommandSelectCallback.Execute (checkIfHasActorSelectionParameter : CommandLine → Bool)
    (s : Studio) (commandLine : CommandLine) : Option CallbackResult :=
  if checkIfHasActorSelectionParameter commandLine = false then
    some { result := true, studio := s, updateInterfaceCalls := 0 }
  else UpdateInterfaceMotionExtractionWindow s

/-- Embeds `CommandSelectCallback::Undo`. -/
def CommandSelectCallback.Undo (checkIfHasActorSelectionParameter : CommandLine → Bool)
    (s : Studio) (commandLine : CommandLine) : Option CallbackResult :=
  if checkIfHasActorSelectionParameter commandLine = false then
    some { result := true, studio := s, updateInterfaceCalls := 0 }
  else UpdateInterfaceMotionExtractionWindow s

/-- Embeds `CommandUnselectCallback::Execute`. -/
def CommandUnselectCallback.Execute (checkIfHasActorSelectionParameter : CommandLine → Bool)
    (s : Studio) (commandLine : CommandLine) : Option CallbackResult :=
  if checkIfHasActorSelectionParameter commandLine = false then
    some { result := true, studio := s, updateInterfaceCalls := 0 }
  else UpdateInterfaceMotionExtractionWindow s

/-- Embeds `CommandUnselectCallback::Undo`. -/
def CommandUnselectCallback.Undo (checkIfHasActorSelectionParameter : CommandLine → Bool)
    (s : Studio) (commandLine : CommandLine) : Option CallbackResult :=
  if checkIfHasActorSelectionParameter commandLine = false then
    some { result := true, studio := s, updateInterfaceCalls := 0 }
  else UpdateInterfaceMotionExtractionWindow s

/-- Embeds `CommandClearSelectionCallback::Execute`: the command line is unused. -/
def CommandClearSelectionCallback.Execute (s : Studio) (_commandLine : CommandLine) :
    Option CallbackResult :=
  UpdateInterfaceMotionExtractionWindow s

/-- Embeds `CommandClearSelectionCallback::Undo`: the command line is unused. -/
def CommandClearSelectionCallback.Undo (s : Studio) (_commandLine : CommandLine) :
    Option CallbackResult :=
  UpdateInterfaceMotionExtractionWindow s

/-- Embeds `CommandAdjustActorCallback::Execute`: the command line is unused. -/
def CommandAdjustActorCallback.Execute (s : Studio) (_commandLine : CommandLine) :
    Option CallbackResult :=
  UpdateInterfaceMotionExtractionWindow s

/-- Embeds `CommandAdjustActorCallback::Undo`: the command line is unused. -/
def CommandAdjustActorCallback.Undo (s : Studio) (_commandLine : CommandLine) :
    Option CallbackResult :=
  UpdateInterfaceMotionExtractionWindow s

/-! ## Vocabulary of the properties -/

/-- The command groups a list of effects submits to the executor. -/
def submittedGroups : List Effect → List CommandGroup
  | [] => []
  | Effect.executeCommandGroup g :: rest => g :: submittedGroups rest
  | _ :: rest => submittedGroups rest

/-- Whether a motion is of the skeletal subtype. -/
def Motion.isSkeletal (m : Motion) : Bool :=
  decide (m.mType = SkeletalMotion.TYPE_ID)

/-- The value `GetMotionExtractionFlags` reads off a live check box. -/
def flagsOfCheckBox (cb : QCheckBox) : Nat :=
  if cb.checkState = CheckState.Checked then MOTIONEXTRACT_CAPTURE_Z else 0

/-- The capture-height flag of a motion, as a boolean. -/
def Motion.captureHeight (m : Motion) : Bool :=
  decide ((m.mExtractionFlags &&& MOTIONEXTRACT_CAPTURE_Z) ≠ 0)

/-- The value of `GetActor()->GetMotionExtractionNode()` of the single actor instance, `none` when there is
no single actor instance or its actor has no extraction node. -/
def SelectionList.extractionNode (s : SelectionList) : Option Node :=
  match s.GetSingleActorInstance with
  | some a => a.actor.motionExtractionNode
  | none => none

/-- The two panel layouts. -/
inductive Layout where
  | Warning
  | Flags
  deriving DecidableEq, Repr

/-- The warning layout is live: its container has been constructed and not released. -/
def warningLive (w : MotionExtractionWindow) : Bool :=
  w.mWarningWidget.isLive

/-- The flags layout is live: its container has been constructed and not released. -/
def flagsLive (w : MotionExtractionWindow) : Bool :=
  w.mFlagsWidget.isLive

/-- The layout that is live alone, if there is one. -/
def activeLayout (w : MotionExtractionWindow) : Option Layout :=
  match warningLive w, flagsLive w with
  | true, false => some Layout.Warning
  | false, true => some Layout.Flags
  | _, _ => none

/-- The panel invariant: the main layout exists and `mWarningShowed` agrees with the widgets.
When the warning is showed, the warning container and its link are live, there is no check box
and no live flags container (`mFlagsWidget` may still hold its indeterminate initial value);
otherwise the flags container and the check box are live and `mWarningWidget` is null.
`Init` establishes the invariant and `UpdateInterface` preserves it (`PanelInv_Init`,
`PanelInv_UpdateInterface`). -/
def PanelInv (w : MotionExtractionWindow) : Prop :=
  w.mMainVerticalLayout.isLive = true ∧
  (w.mWarningShowed = true →
    w.mWarningWidget.isLive = true ∧ w.mWarningSelectNodeLink.isLive = true ∧
    w.mCaptureHeight = Ptr.null ∧ w.mFlagsWidget.isLive = false) ∧
  (w.mWarningShowed = false →
    w.mFlagsWidget.isLive = true ∧ w.mCaptureHeight.isLive = true ∧
    w.mWarningWidget = Ptr.null)

instance (w : MotionExtractionWindow) : Decidable (PanelInv w) := by
  unfold PanelInv
  infer_instance

/-- A window in the warning layout, as `Init` leaves it for a selection without extraction
node. -/
def warningWindow : MotionExtractionWindow :=
  { mMainVerticalLayout := Ptr.live { margin := 0, spacing := 0 },
    mWarningWidget := Ptr.live { minimumHeight := 54, maximumHeight := 54 },
    mWarningSelectNodeLink :=
      Ptr.live { text := "Click here to setup the Motion Extraction node", enabled := false },
    mFlagsWidget := Ptr.dangling,
    mCaptureHeight := Ptr.null,
    mWarningShowed := true }

/-- A window in the flags layout with an enabled, unchecked two-state check box. -/
def flagsWindow : MotionExtractionWindow :=
  { mMainVerticalLayout := Ptr.live { margin := 0, spacing := 0 },
    mWarningWidget := Ptr.null,
    mWarningSelectNodeLink := Ptr.dangling,
    mFlagsWidget := Ptr.live { minimumHeight := 54, maximumHeight := 54 },
    mCaptureHeight := Ptr.live (QCheckBox.new "Capture Height Changes"),
    mWarningShowed := false }

/-- An actor instance whose actor has the extraction node `root`. -/
def actorWithNode : ActorInstance :=
  { mID := 0, actor := { motionExtractionNode := some { name := "root" } } }

/-- An actor instance whose actor has no extraction node. -/
def actorWithoutNode : ActorInstance :=
  { mID := 0, actor := { motionExtractionNode := none } }

/-- The flags window with its check box reading `Checked`. -/
def checkedWindow : MotionExtractionWindow :=
  { flagsWindow with
    mCaptureHeight :=
      Ptr.live ((QCheckBox.new "Capture Height Changes").setCheckState CheckState.Checked) }

/-- An executor that accepts every group. -/
def acceptAll (_group : CommandGroup) : Bool × String :=
  (true, "")

/-- A selection of one motion of a non-skeletal type (id 7), with a single actor instance that
has an extraction node. -/
def nonSkeletalSelection : SelectionList :=
  { motions := [{ mID := 7, mType := SkeletalMotion.TYPE_ID + 1, mExtractionFlags := 0 }],
    singleActorInstance := some actorWithNode }

/-- The selection of the spec's example: skeletal items with id 1 (flag set) and id 2 (flag
clear), and a single actor instance that has an extraction node. -/
def exampleSelection : SelectionList :=
  { motions := [{ mID := 1, mType := SkeletalMotion.TYPE_ID, mExtractionFlags := 1 },
                { mID := 2, mType := SkeletalMotion.TYPE_ID, mExtractionFlags := 0 }],
    singleActorInstance := some actorWithNode }

/-- A selection of one skeletal motion whose id is `2^31`. -/
def largeIdSelection : SelectionList :=
  { motions := [{ mID := 2147483648, mType := SkeletalMotion.TYPE_ID, mExtractionFlags := 0 }],
    singleActorInstance := some actorWithNode }

/-- A selection of two skeletal motions that both have the capture-height flag set, with a
single actor instance that has an extraction node. -/
def agreeingSelection : SelectionList :=
  { motions := [{ mID := 1, mType := SkeletalMotion.TYPE_ID, mExtractionFlags := 1 },
                { mID := 2, mType := SkeletalMotion.TYPE_ID, mExtractionFlags := 1 }],
    singleActorInstance := some actorWithNode }

/-- A selection of one skeletal motion with the capture-height flag set, with a single actor
instance that has an extraction node. -/
def singleSelection : SelectionList :=
  { motions := [{ mID := 1, mType := SkeletalMotion.TYPE_ID, mExtractionFlags := 1 }],
    singleActorInstance := some actorWithNode }

/-- No motion selected; a single actor instance that has an extraction node. -/
def emptySelection : SelectionList :=
  { motions := [], singleActorInstance := some actorWithNode }

/-- Nothing selected at all. -/
def noSelection : SelectionList :=
  { motions := [], singleActorInstance := none }

/-- An example of a filter predicate: the command line names an `actorID` parameter. -/
def hasActorID (commandLine : CommandLine) : Bool :=
  commandLine.parameters.any (fun p => p.1 == "actorID")

/-- A command line without any parameter. -/
def bareCommandLine : CommandLine :=
  { parameters := [] }

/-- The plugin is active and its window shows the flags layout; two motions are selected. -/
def activeStudio : Studio :=
  { activeMotionExtractionWindow := some flagsWindow, currentSelection := exampleSelection }

/-- The plugin is not active. -/
def inactiveStudio : Studio :=
  { activeMotionExtractionWindow := none, currentSelection := exampleSelection }

/-! ## OnMotionExtractionNodeSelected -/

/-- The `%s` conversion of `AZStd::string::format` applied to `nodeName.c_str()`: the
characters up to the first NUL. -/
def formatS (s : String) : String :=
  String.mk (s.data.takeWhile (fun c => c != Char.ofNat 0))

/-- A `SelectionItem` of the node picker: an actor instance id and a node name. -/
structure SelectionItem where
  mActorInstanceID : Nat
  mNodeName : String
  deriving DecidableEq, Repr

/-- The text built by `AZStd::string::format("AdjustActor -actorID %i
-motionExtractionNodeName \"%s\"", actorID, nodeName.c_str())`; `actorID` is a `uint32`. -/
def adjustActorCommand (actorID : Nat) (nodeName : String) : String :=
  "AdjustActor -actorID " ++ formatI actorID
    ++ " -motionExtractionNodeName \"" ++ formatS nodeName ++ "\""

/-- Embeds `MotionExtractionWindow::OnMotionExtractionNodeSelected`.
`ActorPropertiesWindow::GetNodeName` is defined outside this file and is the parameter
`GetNodeName`, returning what it writes to `nodeName` and `actorID`; the executor's answer is
the parameter `executor`. The result is the effects in order; on failure the result string is
logged whether or not it is empty. -/
def OnMotionExtractionNodeSelected (GetNodeName : List SelectionItem → String × Nat)
    (executor : CommandGroup → Bool × String) (selection : List SelectionItem) :
    List Effect :=
  let (nodeName, actorID) := GetNodeName selection
  let commandGroup : CommandGroup := { name := "Adjust motion extraction node", commands := [] }
  let commandGroup := commandGroup.AddCommandString (adjustActorCommand actorID nodeName)
  let (ok, outResult) := executor commandGroup
  if ok = false then
    [Effect.executeCommandGroup commandGroup, Effect.logError outResult]
  else
    [Effect.executeCommandGroup commandGroup]

/-! ## Sequences of calls -/

/-- One `UpdateInterface` call per selection of the list, in order, each on the window the
previous call left. -/
def UpdateInterfaceAll (w : MotionExtractionWindow) :
    List SelectionList → Option MotionExtractionWindow
  | [] => some w
  | selectionList :: rest =>
    match UpdateInterface w selectionList with
    | none => none
    | some w' => UpdateInterfaceAll w' rest

/-- The life of a window: construction, `Init` under the selection `first`, then one
`UpdateInterface` call for each selection of `later`. -/
def windowAfter (flagsWidgetIsNull : Bool) (first : SelectionList)
    (later : List SelectionList) : Option MotionExtractionWindow :=
  match Init (MotionExtractionWindow.construct flagsWidgetIsNull) first with
  | none => none
  | some w => UpdateInterfaceAll w later

/-- The layout `UpdateInterface` asks for under a selection: Flags when there is an extraction
node, Warning otherwise. -/
def requiredLayout (selectionList : SelectionList) : Layout :=
  if selectionList.extractionNode.isSome then Layout.Flags else Layout.Warning

/-- Global agreement, in the words of the spec: every item of the selection has the same
capture-height flag value as every other. -/
def allFlagsEqualSpec (motions : List Motion) : Bool :=
  motions.all (fun a => motions.all (fun b => a.captureHeight == b.captureHeight))

/-- A selection whose capture-height flags read true, false, true. -/
def trueFalseTrueSelection : SelectionList :=
  { motions := [{ mID := 1, mType := SkeletalMotion.TYPE_ID, mExtractionFlags := 1 },
                { mID := 2, mType := SkeletalMotion.TYPE_ID, mExtractionFlags := 0 },
                { mID := 3, mType := SkeletalMotion.TYPE_ID, mExtractionFlags := 1 }],
    singleActorInstance := some actorWithNode }

/-- A stand-in for `GetNodeName`: the name and actor instance id of the single selected item,
and the empty name with the invalid index `0xFFFFFFFF` otherwise. -/
def pickSingle (selection : List SelectionItem) : String × Nat :=
  match selection with
  | [item] => (item.mNodeName, item.mActorInstanceID)
  | _ => ("", 4294967295)

end EMStudio

/-! ## MotionEvent (AnimationBus.h) -/

namespace EMotionFX.Integration

/-- The NUL character that terminates a C string. A C `char` is modelled as a `Char`; only NUL
is distinguished. -/
def NUL : Char := Char.ofNat 0

/-- The enumerator `MotionEvent::kMaxParameterStringLength`. -/
def kMaxParameterStringLength : Nat := 64 - 1

/-- An address; a raw pointer is an address or `none` for `nullptr`. -/
abbrev Address := Nat

/-- An `AZ::EntityId`, a 64-bit id. -/
structure EntityId where
  m_id : Nat
  deriving DecidableEq, Repr

/-- The `MotionEvent` structure. `m_parameterStorage` is the array of
`kMaxParameterStringLength + 1` characters and `storageAddress` the address of its first
element (`m_parameterStorage.data()`), fixed by where the object lives; the `float` members are
kept as their bit patterns; pointer members hold addresses. -/
structure MotionEvent where
  storageAddress : Address
  m_parameterStorage : List Char
  m_entityId : EntityId
  m_parameter : Option Address
  m_actorInstance : Option Address
  m_motionInstance : Option Address
  m_time : Nat
  m_eventType : Nat
  m_eventTypeName : Option Address
  m_globalWeight : Nat
  m_localWeight : Nat
  m_isEventStart : Bool
  deriving DecidableEq, Repr

/-- The default constructor `MotionEvent()`, for an object whose storage lives at
`storageAddress`. The array is not initialised beyond its first element (`indeterminate` is
what it holds before), and `m_entityId` is default-constructed (`defaultEntityId`, the value
produced by the default constructor of `AZ::EntityId`, declared outside this file). -/
def MotionEvent.construct (storageAddress : Address) (indeterminate : List Char)
    (defaultEntityId : EntityId) : MotionEvent :=
  { storageAddress := storageAddress,
    m_parameterStorage := indeterminate.set 0 NUL,
    m_entityId := defaultEntityId,
    m_parameter := some storageAddress,
    m_actorInstance := none,
    m_motionInstance := none,
    m_time := 0,
    m_eventType := 0,
    m_eventTypeName := none,
    m_globalWeight := 0,
    m_localWeight := 0,
    m_isEventStart := false }

/-- The copy constructor `MotionEvent(const MotionEvent& rhs)`, for a new object whose storage
lives at `storageAddress`. The initialiser list names eight members; `m_entityId` is not among
them and is therefore default-constructed (`defaultEntityId`); the body assigns the array and
points `m_parameter` at the new object's own array. -/
def MotionEvent.copyConstruct (storageAddress : Address) (defaultEntityId : EntityId)
    (rhs : MotionEvent) : MotionEvent :=
  { storageAddress := storageAddress,
    m_parameterStorage := rhs.m_parameterStorage,
    m_entityId := defaultEntityId,
    m_parameter := some storageAddress,
    m_actorInstance := rhs.m_actorInstance,
    m_motionInstance := rhs.m_motionInstance,
    m_time := rhs.m_time,
    m_eventType := rhs.m_eventType,
    m_eventTypeName := rhs.m_eventTypeName,
    m_globalWeight := rhs.m_globalWeight,
    m_localWeight := rhs.m_localWeight,
    m_isEventStart := rhs.m_isEventStart }

/-- The characters `strncpy` writes for a source and a count: the source characters up to the
count; once a NUL is met, NULs for the rest of the count. `none` when the count runs past the
readable characters of the source before any NUL. -/
def copiedChars : List Char → Nat → Option (List Char)
  | _, 0 => some []
  | [], _ + 1 => none
  | c :: cs, n + 1 =>
    if c = NUL then some (List.replicate (n + 1) NUL)
    else
      match copiedChars cs n with
      | none => none
      | some rest => some (c :: rest)

/-- Modelled from the spec: the `azstrncpy(dest, destSize, src, count)` macro of AzCore
(defined outside this file; it expands to `strncpy_s` or `strncpy`), the copy behind the
spec's "truncating assignment": the first `count` elements of `dest` are overwritten as
`strncpy` does. `none` stands for a count that does not leave room inside `destSize`, or a
source that cannot be read far enough. -/
def azstrncpy (dest : List Char) (destSize : Nat) (src : List Char) (count : Nat) :
    Option (List Char) :=
  if destSize ≤ dest.length ∧ count < destSize then
    match copiedChars src count with
    | none => none
    | some cs => some (cs ++ dest.drop count)
  else none

/-- Embeds `MotionEvent::SetParameterString(str, length)`; `str` is the run of characters
readable at the pointer. `none` stands for undefined behaviour inside the copy. -/
def MotionEvent.SetParameterString (e : MotionEvent) (str : List Char) (length : Nat) :
    Option MotionEvent :=
  if length ≠ 0 then
    let truncatedLength := min length kMaxParameterStringLength
    match azstrncpy e.m_parameterStorage e.m_parameterStorage.length str truncatedLength with
    | none => none
    | some storage => some { e with m_parameterStorage := storage.set truncatedLength NUL }
  else
    some { e with m_parameterStorage := e.m_parameterStorage.set 0 NUL }

/-- The NUL-terminated string held in the array: its characters before the first NUL. -/
def MotionEvent.parameterString (e : MotionEvent) : List Char :=
  e.m_parameterStorage.takeWhile (fun c => c != NUL)

/-- An event at address 1000 with entity id 42 and the parameter `jump`, the rest of the array
filled with `x`. -/
def sampleEvent : MotionEvent :=
  { storageAddress := 1000,
    m_parameterStorage := "jump".data ++ [NUL] ++ List.replicate 59 (Char.ofNat 120),
    m_entityId := { m_id := 42 },
    m_parameter := some 1000,
    m_actorInstance := some 2000,
    m_motionInstance := some 3000,
    m_time := 1065353216,
    m_eventType := 7,
    m_eventTypeName := some 4000,
    m_globalWeight := 1065353216,
    m_localWeight := 1056964608,
    m_isEventStart := true }

/-- The value a default-constructed `AZ::EntityId` holds in the examples (the invalid id). -/
def invalidEntityId : EntityId :=
  { m_id := 4294967295 }

end EMotionFX.Integration

namespace EMStudio

/-! # Properties -/

/-! ## Auxiliary facts about the command batch -/

theorem foldl_range_getElem? {α β : Type} (l : List α) (f : β → α → β) (g : β → Nat → β)
    (hg : ∀ b i, g b i = match l[i]? with
      | none => b
      | some a => f b a) (b : β) :
    (List.range l.length).foldl g b = l.foldl f b := by
  have key : ∀ k, k ≤ l.length → (List.range k).foldl g b = (l.take k).foldl f b := by
    intro k
    induction k with
    | zero => intro _; simp
    | succ k ih =>
      intro hk
      have hk' : k < l.length := hk
      rw [List.range_succ, List.foldl_append, ih (Nat.le_of_lt hk'), List.take_succ,
        List.foldl_append]
      simp [hg, List.getElem?_eq_getElem hk']
  simpa using key l.length (Nat.le_refl _)

theorem foldl_addCommands (flags : Nat) (l : List Motion) (g : CommandGroup) :
    l.foldl (fun (c : CommandGroup) (m : Motion) =>
        if m.mType ≠ SkeletalMotion.TYPE_ID then c
        else c.AddCommandString (adjustMotionCommand m.mID flags)) g
      = { g with commands := g.commands
            ++ (l.filter Motion.isSkeletal).map (fun m => adjustMotionCommand m.mID flags) } := by
  induction l generalizing g with
  | nil => simp
  | cons m rest ih =>
    rw [List.foldl_cons, ih]
    by_cases hm : m.mType = SkeletalMotion.TYPE_ID
    · simp [hm, Motion.isSkeletal, CommandGroup.AddCommandString]
    · simp [hm, Motion.isSkeletal]

/-- The command group built by the loop of `OnMotionExtractionFlagsUpdated`: the halt command
followed by the `AdjustMotion` commands of the skeletal motions, in selection order. -/
theorem built_commandGroup (selectionList : SelectionList) (flags : Nat) :
    (List.range selectionList.GetNumSelectedMotions).foldl
        (addAdjustMotionCommand selectionList flags)
        (CommandGroup.AddCommandString
          { name := "Adjust motion extraction settings", commands := [] }
          "StopAllMotionInstances")
      = { name := "Adjust motion extraction settings",
          commands := "StopAllMotionInstances" ::
            (selectionList.motions.filter Motion.isSkeletal).map
              (fun m => adjustMotionCommand m.mID flags) } := by
  unfold SelectionList.GetNumSelectedMotions
  rw [foldl_range_getElem? selectionList.motions
    (fun (c : CommandGroup) (m : Motion) =>
        if m.mType ≠ SkeletalMotion.TYPE_ID then c
        else c.AddCommandString (adjustMotionCommand m.mID flags))]
  · rw [foldl_addCommands]
    simp [CommandGroup.AddCommandString]
  · intro b i
    simp only [addAdjustMotionCommand, SelectionList.GetMotion]
    cases selectionList.motions[i]? <;> rfl

theorem GetMotionExtractionFlags_live (w : MotionExtractionWindow) (cb : QCheckBox)
    (h : w.mCaptureHeight = Ptr.live cb) :
    GetMotionExtractionFlags w = some (flagsOfCheckBox cb) := by
  unfold GetMotionExtractionFlags flagsOfCheckBox
  rw [h]
  by_cases hc : cb.checkState = CheckState.Checked <;> simp [hc]

/-- With a live check box, a single actor instance that has an extraction node and a non-empty
selection, the slot submits exactly one group: the halt command and the commands of the
skeletal motions. -/
theorem OnMotionExtractionFlagsUpdated_submits (executor : CommandGroup → Bool × String)
    (w : MotionExtractionWindow) (selectionList : SelectionList) (cb : QCheckBox)
    (actorInstance : ActorInstance) (node : Node)
    (hcb : w.mCaptureHeight = Ptr.live cb)
    (hactor : selectionList.singleActorInstance = some actorInstance)
    (hnode : actorInstance.actor.motionExtractionNode = some node)
    (hsel : selectionList.motions ≠ []) :
    ∃ effects, OnMotionExtractionFlagsUpdated executor w selectionList = some (w, effects) ∧
      submittedGroups effects =
        [{ name := "Adjust motion extraction settings",
           commands := "StopAllMotionInstances" ::
             (selectionList.motions.filter Motion.isSkeletal).map
               (fun m => adjustMotionCommand m.mID (flagsOfCheckBox cb)) }] := by
  have hlen : selectionList.GetNumSelectedMotions ≠ 0 := by
    simpa [SelectionList.GetNumSelectedMotions] using hsel
  unfold OnMotionExtractionFlagsUpdated
  simp only [SelectionList.GetSingleActorInstance, hactor, hlen, if_false, hnode,
    GetMotionExtractionFlags_live w cb hcb, built_commandGroup]
  simp only [CommandGroup.GetNumCommands, List.length_cons, Nat.succ_pos, if_true,
    gt_iff_lt, Nat.zero_lt_succ]
  split <;> exact ⟨_, rfl, by simp [submittedGroups]⟩

/-! ## The command batch of `OnMotionExtractionFlagsUpdated` -/

/-- C1: on the selection of one non-skeletal motion, with a single actor instance that has an
extraction node, the slot does submit a group to the executor: the group holding the halt
command alone. The test `GetNumCommands() > 0` cannot fail, the halt command having been added
before the loop. -/
theorem C1_nonSkeletal_selection_is_submitted :
    OnMotionExtractionFlagsUpdated acceptAll checkedWindow nonSkeletalSelection
      = some (checkedWindow,
          [Effect.executeCommandGroup
            { name := "Adjust motion extraction settings",
              commands := ["StopAllMotionInstances"] }]) := by
  decide

/-- For every non-empty selection without a skeletal motion the submitted group is the halt
command alone. -/
theorem nonSkeletal_selection_submits_halt (executor : CommandGroup → Bool × String)
    (w : MotionExtractionWindow) (selectionList : SelectionList) (cb : QCheckBox)
    (actorInstance : ActorInstance) (node : Node)
    (hcb : w.mCaptureHeight = Ptr.live cb)
    (hactor : selectionList.singleActorInstance = some actorInstance)
    (hnode : actorInstance.actor.motionExtractionNode = some node)
    (hsel : selectionList.motions ≠ [])
    (hnone : ∀ m ∈ selectionList.motions, m.mType ≠ SkeletalMotion.TYPE_ID) :
    ∃ effects, OnMotionExtractionFlagsUpdated executor w selectionList = some (w, effects) ∧
      submittedGroups effects =
        [{ name := "Adjust motion extraction settings",
           commands := ["StopAllMotionInstances"] }] := by
  obtain ⟨effects, h1, h2⟩ := OnMotionExtractionFlagsUpdated_submits executor w selectionList cb
    actorInstance node hcb hactor hnode hsel
  refine ⟨effects, h1, ?_⟩
  have hf : selectionList.motions.filter Motion.isSkeletal = [] := by
    rw [List.filter_eq_nil_iff]
    intro m hm
    simpa [Motion.isSkeletal] using hnone m hm
  rw [h2, hf]
  rfl

/-- C3: for a selection of N >= 1 motions, all skeletal, with a single actor instance that has
an extraction node, the slot submits exactly one group; it has N+1 commands, the first is
`StopAllMotionInstances`, and for every k < N the command at position k+1 is the `AdjustMotion`
command built from the id of the k-th selected motion. -/
theorem C3_skeletal_selection_batch (executor : CommandGroup → Bool × String)
    (w : MotionExtractionWindow) (selectionList : SelectionList) (cb : QCheckBox)
    (actorInstance : ActorInstance) (node : Node)
    (hcb : w.mCaptureHeight = Ptr.live cb)
    (hactor : selectionList.singleActorInstance = some actorInstance)
    (hnode : actorInstance.actor.motionExtractionNode = some node)
    (hN : 1 ≤ selectionList.motions.length)
    (hall : ∀ m ∈ selectionList.motions, m.mType = SkeletalMotion.TYPE_ID) :
    ∃ effects group,
      OnMotionExtractionFlagsUpdated executor w selectionList = some (w, effects) ∧
      submittedGroups effects = [group] ∧
      group.commands.length = selectionList.motions.length + 1 ∧
      group.commands[0]? = some "StopAllMotionInstances" ∧
      ∀ (k : Nat) (hk : k < selectionList.motions.length),
        group.commands[k + 1]? =
          some ("AdjustMotion -motionID " ++ formatI (selectionList.motions[k]).mID
                ++ " -motionExtractionFlags " ++ formatI (flagsOfCheckBox cb)) := by
  have hsel : selectionList.motions ≠ [] := by
    intro h
    rw [h] at hN
    simp at hN
  obtain ⟨effects, h1, h2⟩ := OnMotionExtractionFlagsUpdated_submits executor w selectionList cb
    actorInstance node hcb hactor hnode hsel
  have hf : selectionList.motions.filter Motion.isSkeletal = selectionList.motions := by
    rw [List.filter_eq_self]
    intro m hm
    simpa [Motion.isSkeletal] using hall m hm
  rw [hf] at h2
  refine ⟨effects, _, h1, h2, ?_, ?_, ?_⟩
  · simp
  · simp
  · intro k hk
    simp [List.getElem?_eq_getElem hk, adjustMotionCommand]

/-- Witness for C3: the spec's example selection (two skeletal motions). -/
theorem C3_skeletal_selection_batch_witness :
    ∃ effects group,
      OnMotionExtractionFlagsUpdated acceptAll checkedWindow exampleSelection
        = some (checkedWindow, effects) ∧
      submittedGroups effects = [group] ∧
      group.commands.length = exampleSelection.motions.length + 1 ∧
      group.commands[0]? = some "StopAllMotionInstances" ∧
      ∀ (k : Nat) (hk : k < exampleSelection.motions.length),
        group.commands[k + 1]? =
          some ("AdjustMotion -motionID " ++ formatI (exampleSelection.motions[k]).mID
                ++ " -motionExtractionFlags "
                ++ formatI (flagsOfCheckBox
                    ((QCheckBox.new "Capture Height Changes").setCheckState
                      CheckState.Checked))) :=
  C3_skeletal_selection_batch acceptAll checkedWindow exampleSelection _ actorWithNode
    { name := "root" } rfl rfl rfl (by decide) (by decide)

theorem formatI_of_lt (v : Nat) (h : v < 2 ^ 31) : formatI v = toString v := by
  have h32 : v % 2 ^ 32 = v := Nat.mod_eq_of_lt (by omega)
  simp only [formatI, h32, h, if_true]

theorem formatI_of_ge (v : Nat) (h : 2 ^ 31 ≤ v) (h32 : v < 2 ^ 32) :
    formatI v = "-" ++ toString (2 ^ 32 - v) := by
  have hm : v % 2 ^ 32 = v := Nat.mod_eq_of_lt h32
  have hn : ¬ v < 2 ^ 31 := by omega
  simp only [formatI, hm, hn, if_false]

theorem formatI_flagsOfCheckBox (cb : QCheckBox) :
    formatI (flagsOfCheckBox cb)
      = if cb.checkState = CheckState.Checked then "1" else "0" := by
  unfold flagsOfCheckBox
  by_cases hc : cb.checkState = CheckState.Checked
  · simp only [hc, if_true]
    decide
  · simp only [hc, if_false]
    decide

/-- C4, as stated, fails: for a skeletal motion whose id is `2^31` the set-flags command is
not `AdjustMotion -motionID 2147483648 -motionExtractionFlags 1`; the `%i` conversion renders
the id as `-2147483648`. -/
theorem C4_large_id_counterexample :
    (OnMotionExtractionFlagsUpdated acceptAll checkedWindow largeIdSelection).map
        (fun r => submittedGroups r.2)
      = some [{ name := "Adjust motion extraction settings",
                commands := ["StopAllMotionInstances",
                  "AdjustMotion -motionID -2147483648 -motionExtractionFlags 1"] }] ∧
    (OnMotionExtractionFlagsUpdated acceptAll checkedWindow largeIdSelection).map
        (fun r => submittedGroups r.2)
      ≠ some [{ name := "Adjust motion extraction settings",
                commands := ["StopAllMotionInstances",
                  "AdjustMotion -motionID 2147483648 -motionExtractionFlags 1"] }] := by
  decide

/-- C4, amended: for a non-empty selection of motions with 32-bit ids, a single actor instance
that has an extraction node and a live check box, the submitted group is the halt command
followed, for each skeletal motion in selection order, by
`AdjustMotion -motionID <i> -motionExtractionFlags <m>`, where `<i>` is the id in decimal when it
is below `2^31` and the negative number `i - 2^32` otherwise, and `<m>` is the same for all
motions: `1` when the check box reads `Checked`, `0` when it reads `Unchecked` or
`PartiallyChecked`. -/
theorem C4_command_text (executor : CommandGroup → Bool × String)
    (w : MotionExtractionWindow) (selectionList : SelectionList) (cb : QCheckBox)
    (actorInstance : ActorInstance) (node : Node)
    (hcb : w.mCaptureHeight = Ptr.live cb)
    (hactor : selectionList.singleActorInstance = some actorInstance)
    (hnode : actorInstance.actor.motionExtractionNode = some node)
    (hsel : selectionList.motions ≠ [])
    (hid : ∀ m ∈ selectionList.motions, m.mID < 2 ^ 32) :
    ∃ effects, OnMotionExtractionFlagsUpdated executor w selectionList = some (w, effects) ∧
      submittedGroups effects =
        [{ name := "Adjust motion extraction settings",
           commands := "StopAllMotionInstances" ::
             (selectionList.motions.filter Motion.isSkeletal).map
               (fun m => "AdjustMotion -motionID "
                 ++ (if m.mID < 2 ^ 31 then toString m.mID
                     else "-" ++ toString (2 ^ 32 - m.mID))
                 ++ " -motionExtractionFlags "
                 ++ (if cb.checkState = CheckState.Checked then "1" else "0")) }] := by
  obtain ⟨effects, h1, h2⟩ := OnMotionExtractionFlagsUpdated_submits executor w selectionList cb
    actorInstance node hcb hactor hnode hsel
  refine ⟨effects, h1, ?_⟩
  rw [h2]
  congr 2
  apply congrArg
  apply List.map_congr_left
  intro m hm
  have hm' : m ∈ selectionList.motions := (List.mem_filter.mp hm).1
  unfold adjustMotionCommand
  rw [formatI_flagsOfCheckBox]
  by_cases hlt : m.mID < 2 ^ 31
  · rw [formatI_of_lt _ hlt, if_pos hlt]
  · rw [formatI_of_ge _ (by omega) (hid m hm'), if_neg hlt]

/-- Witness for C4: the example of the spec; items 1 and 2 with the box checked give the
batch `StopAllMotionInstances`, `AdjustMotion -motionID 1 -motionExtractionFlags 1`,
`AdjustMotion -motionID 2 -motionExtractionFlags 1`. -/
theorem C4_command_text_witness :
    ∃ effects,
      OnMotionExtractionFlagsUpdated acceptAll checkedWindow exampleSelection
        = some (checkedWindow, effects) ∧
      submittedGroups effects =
        [{ name := "Adjust motion extraction settings",
           commands := ["StopAllMotionInstances",
             "AdjustMotion -motionID 1 -motionExtractionFlags 1",
             "AdjustMotion -motionID 2 -motionExtractionFlags 1"] }] := by
  obtain ⟨effects, h1, h2⟩ := C4_command_text acceptAll checkedWindow exampleSelection _
    actorWithNode { name := "root" } rfl rfl rfl (by decide) (by decide)
  refine ⟨effects, h1, ?_⟩
  rw [h2]
  decide

/-- C5: when the selection has no motion, or there is no single actor instance, or the actor
of the single actor instance has no extraction node, the slot returns normally, submits no
group to the executor, leaves the window as it was, and its only possible effect is the
warning logged for the missing extraction node. -/
theorem C5_failed_precondition_submits_nothing (executor : CommandGroup → Bool × String)
    (w : MotionExtractionWindow) (selectionList : SelectionList)
    (h : selectionList.motions = [] ∨ selectionList.singleActorInstance = none ∨
      ∃ actorInstance, selectionList.singleActorInstance = some actorInstance ∧
        actorInstance.actor.motionExtractionNode = none) :
    ∃ effects, OnMotionExtractionFlagsUpdated executor w selectionList = some (w, effects) ∧
      submittedGroups effects = [] ∧
      (effects = [] ∨ effects = [Effect.logWarning "Motion extraction node not set."]) := by
  unfold OnMotionExtractionFlagsUpdated
  simp only [SelectionList.GetSingleActorInstance, SelectionList.GetNumSelectedMotions]
  cases hai : selectionList.singleActorInstance with
  | none => exact ⟨[], rfl, rfl, Or.inl rfl⟩
  | some ai =>
    by_cases hlen : selectionList.motions.length = 0
    · simp only [hlen, if_true]
      exact ⟨[], rfl, rfl, Or.inl rfl⟩
    · have hne : selectionList.motions ≠ [] := by
        intro hnil
        exact hlen (by rw [hnil]; rfl)
      rcases h with h | h | ⟨a, ha, hnode⟩
      · exact absurd h hne
      · rw [hai] at h
        cases h
      · rw [hai] at ha
        cases ha
        simp only [hlen, if_false, hnode]
        exact ⟨_, rfl, rfl, Or.inr rfl⟩

/-- Witness for C5: an actor without extraction node and a window that has no check box at
all. -/
theorem C5_failed_precondition_submits_nothing_witness :
    ∃ effects,
      OnMotionExtractionFlagsUpdated acceptAll warningWindow
          { motions := exampleSelection.motions, singleActorInstance := some actorWithoutNode }
        = some (warningWindow, effects) ∧
      submittedGroups effects = [] ∧
      (effects = [] ∨ effects = [Effect.logWarning "Motion extraction node not set."]) :=
  C5_failed_precondition_submits_nothing acceptAll warningWindow
    { motions := exampleSelection.motions, singleActorInstance := some actorWithoutNode }
    (Or.inr (Or.inr ⟨actorWithoutNode, rfl, rfl⟩))

/-! ## The scan over the selected motions -/

theorem and_CAPTURE_Z_lt (n : Nat) : n &&& MOTIONEXTRACT_CAPTURE_Z < 2 := by
  unfold MOTIONEXTRACT_CAPTURE_Z
  rw [Nat.and_one_is_mod]
  omega

/-- The comparison `curCaptureHeight != (prevMotion->GetMotionExtractionFlags() & CAPTURE_Z)`,
a `bool` against a masked integer, is the comparison of the two boolean flags. -/
theorem promoted_ne_iff (c : Bool) (prev : Motion) :
    ((if c then 1 else 0) ≠ (prev.mExtractionFlags &&& MOTIONEXTRACT_CAPTURE_Z))
      ↔ c ≠ prev.captureHeight := by
  have h := and_CAPTURE_Z_lt prev.mExtractionFlags
  unfold Motion.captureHeight
  cases c <;> simp <;> omega

/-- The scan, unfolded as a fold of the loop body over the indices. -/
theorem captureHeightScan_eq (selectionList : SelectionList) :
    captureHeightScan selectionList
      = (List.range selectionList.motions.length).foldl (captureHeightStep selectionList)
          { allCaptureHeightEqual := true, numCaptureHeight := 0, curCaptureHeight := false } :=
  rfl

/-- One iteration on an existing motion, with the flags read as booleans. -/
theorem captureHeightStep_some (selectionList : SelectionList) (st : CaptureHeightScan)
    (i : Nat) (cur : Motion) (h : selectionList.GetMotion i = some cur) :
    captureHeightStep selectionList st i
      = { allCaptureHeightEqual :=
            match (if i > 0 then selectionList.GetMotion (i - 1) else none) with
            | none => st.allCaptureHeightEqual
            | some prev =>
              if cur.captureHeight ≠ prev.captureHeight then false
              else st.allCaptureHeightEqual,
          numCaptureHeight :=
            if cur.captureHeight then (st.numCaptureHeight + 1) % 2 ^ 32
            else st.numCaptureHeight,
          curCaptureHeight := cur.captureHeight } := by
  unfold captureHeightStep
  rw [h]
  simp only [promoted_ne_iff]
  rfl

/-- Loop invariant after `k` iterations: `allCaptureHeightEqual` holds exactly when every
visited motion agrees with its predecessor, and `curCaptureHeight` is the flag of the motion
visited last. -/
theorem scan_invariant (selectionList : SelectionList) (k : Nat)
    (hk : k ≤ selectionList.motions.length) :
    (((List.range k).foldl (captureHeightStep selectionList)
        { allCaptureHeightEqual := true, numCaptureHeight := 0, curCaptureHeight := false }
      ).allCaptureHeightEqual = true
      ↔ ∀ i, 0 < i → i < k →
          selectionList.motions[i]?.map Motion.captureHeight
            = selectionList.motions[i - 1]?.map Motion.captureHeight) ∧
    (∀ m, 0 < k → selectionList.motions[k - 1]? = some m →
      ((List.range k).foldl (captureHeightStep selectionList)
        { allCaptureHeightEqual := true, numCaptureHeight := 0, curCaptureHeight := false }
      ).curCaptureHeight = m.captureHeight) := by
  induction k with
  | zero =>
    constructor
    · simp
    · intro m h
      omega
  | succ k ih =>
    have hk' : k < selectionList.motions.length := hk
    obtain ⟨ihEq, -⟩ := ih (Nat.le_of_lt hk')
    rw [List.range_succ, List.foldl_append]
    simp only [List.foldl_cons, List.foldl_nil]
    generalize (List.range k).foldl (captureHeightStep selectionList)
        { allCaptureHeightEqual := true, numCaptureHeight := 0, curCaptureHeight := false }
      = st at ihEq ⊢
    have hget : selectionList.GetMotion k = some (selectionList.motions[k]) := by
      simp [SelectionList.GetMotion, List.getElem?_eq_getElem hk']
    rw [captureHeightStep_some selectionList st k _ hget]
    constructor
    · rcases Nat.eq_zero_or_pos k with hz | hpos
      · subst hz
        have hst : st.allCaptureHeightEqual = true := ihEq.mpr (by intro i h1 h2; omega)
        simp only [Nat.lt_irrefl, if_false, hst, true_iff]
        intro i h1 h2
        omega
      · have hlt : k - 1 < selectionList.motions.length := by omega
        have hprev : selectionList.GetMotion (k - 1)
            = some (selectionList.motions[k - 1]) := by
          simp [SelectionList.GetMotion, List.getElem?_eq_getElem hlt]
        simp only [hpos, if_true, hprev]
        by_cases hc : (selectionList.motions[k]).captureHeight
            = (selectionList.motions[k - 1]).captureHeight
        · have hc' : ¬ ((selectionList.motions[k]).captureHeight
              ≠ (selectionList.motions[k - 1]).captureHeight) := fun hne => hne hc
          simp only [hc', if_false]
          rw [ihEq]
          constructor
          · intro h i h1 h2
            rcases Nat.lt_or_ge i k with hik | hik
            · exact h i h1 hik
            · have hi : i = k := by omega
              subst hi
              rw [List.getElem?_eq_getElem hk', List.getElem?_eq_getElem hlt]
              simp only [Option.map_some', hc]
          · intro h i h1 h2
            exact h i h1 (Nat.lt_succ_of_lt h2)
        · have hc' : (selectionList.motions[k]).captureHeight
              ≠ (selectionList.motions[k - 1]).captureHeight := hc
          rw [if_pos hc']
          constructor
          · intro h
            cases h
          · intro h
            have hlast := h k hpos (Nat.lt_succ_self k)
            rw [List.getElem?_eq_getElem hk', List.getElem?_eq_getElem hlt] at hlast
            simp only [Option.map_some', Option.some.injEq] at hlast
            exact absurd hlast hc
    · intro m _ hm
      simp only [Nat.add_sub_cancel] at hm
      rw [List.getElem?_eq_getElem hk'] at hm
      cases hm
      rfl

/-- Agreement of every motion with its predecessor is agreement of all motions. -/
theorem adjacent_agree_iff (l : List Motion) :
    (∀ i, 0 < i → i < l.length →
        l[i]?.map Motion.captureHeight = l[i - 1]?.map Motion.captureHeight)
      ↔ ∀ a ∈ l, ∀ b ∈ l, a.captureHeight = b.captureHeight := by
  constructor
  · intro h
    have first : ∀ i, i < l.length →
        l[i]?.map Motion.captureHeight = l[0]?.map Motion.captureHeight := by
      intro i
      induction i with
      | zero => intro _; rfl
      | succ i ih =>
        intro hi
        have hstep := h (i + 1) (Nat.succ_pos i) hi
        simp only [Nat.add_sub_cancel] at hstep
        rw [hstep]
        exact ih (Nat.lt_of_succ_lt hi)
    intro a ha b hb
    obtain ⟨i, hi, hia⟩ := List.getElem_of_mem ha
    obtain ⟨j, hj, hjb⟩ := List.getElem_of_mem hb
    have h1 := first i hi
    have h2 := first j hj
    rw [List.getElem?_eq_getElem hi, hia] at h1
    rw [List.getElem?_eq_getElem hj, hjb] at h2
    rw [← h2] at h1
    simpa using h1
  · intro h i hpos hi
    have hlt : i - 1 < l.length := by omega
    rw [List.getElem?_eq_getElem hi, List.getElem?_eq_getElem hlt]
    simp only [Option.map_some', Option.some.injEq]
    exact h _ (List.getElem_mem hi) _ (List.getElem_mem hlt)

/-- After the loop, `allCaptureHeightEqual` holds exactly when all selected motions have the
same capture-height flag. -/
theorem scan_allEqual_iff (selectionList : SelectionList) :
    (captureHeightScan selectionList).allCaptureHeightEqual = true
      ↔ ∀ a ∈ selectionList.motions, ∀ b ∈ selectionList.motions,
          a.captureHeight = b.captureHeight := by
  rw [captureHeightScan_eq, (scan_invariant selectionList _ (Nat.le_refl _)).1,
    adjacent_agree_iff]

/-- After the loop over a non-empty selection whose motions all have flag `v`,
`curCaptureHeight` is `v`. -/
theorem scan_cur_of_all (selectionList : SelectionList) (v : Bool)
    (hne : selectionList.motions ≠ [])
    (hall : ∀ m ∈ selectionList.motions, m.captureHeight = v) :
    (captureHeightScan selectionList).curCaptureHeight = v := by
  have hpos : 0 < selectionList.motions.length := List.length_pos.mpr hne
  have hlt : selectionList.motions.length - 1 < selectionList.motions.length := by omega
  rw [captureHeightScan_eq,
    (scan_invariant selectionList _ (Nat.le_refl _)).2 _ hpos (List.getElem?_eq_getElem hlt)]
  exact hall _ (List.getElem_mem hlt)

/-- The loop over a selection of exactly one motion. -/
theorem scan_single (selectionList : SelectionList) (m : Motion)
    (h : selectionList.motions = [m]) :
    captureHeightScan selectionList
      = { allCaptureHeightEqual := true,
          numCaptureHeight := if m.captureHeight then 1 else 0,
          curCaptureHeight := m.captureHeight } := by
  have hget : selectionList.GetMotion 0 = some m := by
    simp [SelectionList.GetMotion, h]
  rw [captureHeightScan_eq, h]
  have hr : List.range (1 : Nat) = [0] := rfl
  simp only [List.length_singleton, hr, List.foldl_cons, List.foldl_nil]
  rw [captureHeightStep_some selectionList _ 0 m hget]
  simp

/-- The loop over the empty selection leaves the initial values. -/
theorem scan_empty (selectionList : SelectionList) (h : selectionList.motions = []) :
    captureHeightScan selectionList
      = { allCaptureHeightEqual := true, numCaptureHeight := 0, curCaptureHeight := false } := by
  rw [captureHeightScan_eq, h]
  rfl

/-! ## `UpdateInterface` on a window that satisfies the panel invariant -/

theorem extractionNode_eq_some (selectionList : SelectionList) (node : Node)
    (h : selectionList.extractionNode = some node) :
    ∃ a, selectionList.singleActorInstance = some a ∧
      a.actor.motionExtractionNode = some node := by
  unfold SelectionList.extractionNode SelectionList.GetSingleActorInstance at h
  cases ha : selectionList.singleActorInstance with
  | none => rw [ha] at h; cases h
  | some a => rw [ha] at h; exact ⟨a, rfl, h⟩

/-- The properties of the check box after the tail of the flags branch. -/
theorem adjustCheckBox_spec (cb : QCheckBox) (n : Nat) (scan : CaptureHeightScan) :
    (adjustCheckBox cb n scan).enabled = cb.enabled ∧
    (adjustCheckBox cb n scan).text = cb.text ∧
    (adjustCheckBox cb n scan).tristate = (decide (n > 1) && !scan.allCaptureHeightEqual) ∧
    (adjustCheckBox cb n scan).checkState =
      (if n > 1 then
        if scan.allCaptureHeightEqual = true then
          if scan.curCaptureHeight = true then CheckState.Checked else CheckState.Unchecked
        else CheckState.PartiallyChecked
      else if scan.numCaptureHeight > 0 then CheckState.Checked else CheckState.Unchecked) := by
  unfold adjustCheckBox
  refine ⟨?_, ?_, ?_, ?_⟩ <;> split_ifs <;>
    simp_all [QCheckBox.setTristate, QCheckBox.setCheckState, QCheckBox.setChecked,
      QCheckBox.checkState]

/-- Running `UpdateInterface` with an extraction node, on a window that shows the flags layout:
nothing is constructed or released. -/
theorem UpdateInterfaceTraced_flags_showed (main : QVBoxLayout) (link : Ptr LinkWidget)
    (fw : QWidget) (cb : QCheckBox) (selectionList : SelectionList) (node : Node)
    (hnode : selectionList.extractionNode = some node) :
    UpdateInterfaceTraced
        { mMainVerticalLayout := Ptr.live main, mWarningWidget := Ptr.null,
          mWarningSelectNodeLink := link, mFlagsWidget := Ptr.live fw,
          mCaptureHeight := Ptr.live cb, mWarningShowed := false } selectionList
      = some ({ mMainVerticalLayout := Ptr.live main, mWarningWidget := Ptr.null,
                mWarningSelectNodeLink := link, mFlagsWidget := Ptr.live fw,
                mCaptureHeight := Ptr.live
                  (adjustCheckBox
                    ((cb.setEnabled (selectionList.motions.length != 0)).setEnabled
                      (selectionList.motions.length != 0))
                    selectionList.motions.length (captureHeightScan selectionList)),
                mWarningShowed := false }, []) := by
  obtain ⟨a, ha, hn⟩ := extractionNode_eq_some selectionList node hnode
  simp [UpdateInterfaceTraced, SelectionList.GetSingleActorInstance, ha, hn,
    setCaptureHeightEnabled, adjustCaptureHeight, SelectionList.GetNumSelectedMotions]

/-- Running `UpdateInterface` with an extraction node, on a window that shows the warning layout: the
warning widget is released, then the flags widget is constructed. -/
theorem UpdateInterfaceTraced_flags_switch (main : QVBoxLayout) (ww : QWidget)
    (link : LinkWidget) (fw : Ptr QWidget) (selectionList : SelectionList) (node : Node)
    (hnode : selectionList.extractionNode = some node) :
    UpdateInterfaceTraced
        { mMainVerticalLayout := Ptr.live main, mWarningWidget := Ptr.live ww,
          mWarningSelectNodeLink := Ptr.live link, mFlagsWidget := fw,
          mCaptureHeight := Ptr.null, mWarningShowed := true } selectionList
      = some ({ mMainVerticalLayout := Ptr.live main, mWarningWidget := Ptr.null,
                mWarningSelectNodeLink := Ptr.dangling,
                mFlagsWidget := Ptr.live { minimumHeight := MOTIONEXTRACTIONWINDOW_HEIGHT,
                                           maximumHeight := MOTIONEXTRACTIONWINDOW_HEIGHT },
                mCaptureHeight := Ptr.live
                  (adjustCheckBox
                    ((QCheckBox.new "Capture Height Changes").setEnabled
                      (selectionList.motions.length != 0))
                    selectionList.motions.length (captureHeightScan selectionList)),
                mWarningShowed := false },
              [{ mMainVerticalLayout := Ptr.live main, mWarningWidget := Ptr.null,
                 mWarningSelectNodeLink := Ptr.dangling, mFlagsWidget := fw,
                 mCaptureHeight := Ptr.null, mWarningShowed := true },
               { mMainVerticalLayout := Ptr.live main, mWarningWidget := Ptr.null,
                 mWarningSelectNodeLink := Ptr.dangling,
                 mFlagsWidget := Ptr.live { minimumHeight := MOTIONEXTRACTIONWINDOW_HEIGHT,
                                            maximumHeight := MOTIONEXTRACTIONWINDOW_HEIGHT },
                 mCaptureHeight := Ptr.live (QCheckBox.new "Capture Height Changes"),
                 mWarningShowed := true }]) := by
  obtain ⟨a, ha, hn⟩ := extractionNode_eq_some selectionList node hnode
  simp [UpdateInterfaceTraced, SelectionList.GetSingleActorInstance, ha, hn,
    setCaptureHeightEnabled, adjustCaptureHeight, SelectionList.GetNumSelectedMotions,
    releaseWarningWidget, CreateFlagsWidget]

theorem extractionNode_eq_none (selectionList : SelectionList)
    (h : selectionList.extractionNode = none) :
    (match selectionList.singleActorInstance with
      | some a => a.actor.motionExtractionNode
      | none => none) = none := h

/-- Running `UpdateInterface` without extraction node, on a window that shows the warning layout:
nothing is constructed or released; the link is enabled exactly when there is a single actor
instance. -/
theorem UpdateInterfaceTraced_warning_showed (main : QVBoxLayout) (ww : QWidget)
    (link : LinkWidget) (fw : Ptr QWidget) (selectionList : SelectionList)
    (hnode : selectionList.extractionNode = none) :
    UpdateInterfaceTraced
        { mMainVerticalLayout := Ptr.live main, mWarningWidget := Ptr.live ww,
          mWarningSelectNodeLink := Ptr.live link, mFlagsWidget := fw,
          mCaptureHeight := Ptr.null, mWarningShowed := true } selectionList
      = some ({ mMainVerticalLayout := Ptr.live main, mWarningWidget := Ptr.live ww,
                mWarningSelectNodeLink :=
                  Ptr.live { link with enabled := selectionList.singleActorInstance.isSome },
                mFlagsWidget := fw, mCaptureHeight := Ptr.null, mWarningShowed := true },
              []) := by
  have h := extractionNode_eq_none selectionList hnode
  simp [UpdateInterfaceTraced, SelectionList.GetSingleActorInstance, h,
    setCaptureHeightEnabled]

/-- Running `UpdateInterface` without extraction node, on a window that shows the flags layout: the
warning widget is constructed first, then the flags widget is released. -/
theorem UpdateInterfaceTraced_warning_switch (main : QVBoxLayout) (link : Ptr LinkWidget)
    (fw : QWidget) (cb : QCheckBox) (selectionList : SelectionList)
    (hnode : selectionList.extractionNode = none) :
    UpdateInterfaceTraced
        { mMainVerticalLayout := Ptr.live main, mWarningWidget := Ptr.null,
          mWarningSelectNodeLink := link, mFlagsWidget := Ptr.live fw,
          mCaptureHeight := Ptr.live cb, mWarningShowed := false } selectionList
      = some ({ mMainVerticalLayout := Ptr.live main,
                mWarningWidget := Ptr.live { minimumHeight := MOTIONEXTRACTIONWINDOW_HEIGHT,
                                             maximumHeight := MOTIONEXTRACTIONWINDOW_HEIGHT },
                mWarningSelectNodeLink :=
                  Ptr.live { text := "Click here to setup the Motion Extraction node",
                             enabled := selectionList.singleActorInstance.isSome },
                mFlagsWidget := Ptr.null, mCaptureHeight := Ptr.null,
                mWarningShowed := true },
              [{ mMainVerticalLayout := Ptr.live main,
                 mWarningWidget := Ptr.live { minimumHeight := MOTIONEXTRACTIONWINDOW_HEIGHT,
                                              maximumHeight := MOTIONEXTRACTIONWINDOW_HEIGHT },
                 mWarningSelectNodeLink :=
                   Ptr.live { text := "Click here to setup the Motion Extraction node",
                              enabled := true },
                 mFlagsWidget := Ptr.live fw,
                 mCaptureHeight :=
                   Ptr.live (cb.setEnabled (selectionList.motions.length != 0)),
                 mWarningShowed := false },
               { mMainVerticalLayout := Ptr.live main,
                 mWarningWidget := Ptr.live { minimumHeight := MOTIONEXTRACTIONWINDOW_HEIGHT,
                                              maximumHeight := MOTIONEXTRACTIONWINDOW_HEIGHT },
                 mWarningSelectNodeLink :=
                   Ptr.live { text := "Click here to setup the Motion Extraction node",
                              enabled := true },
                 mFlagsWidget := Ptr.null, mCaptureHeight := Ptr.null,
                 mWarningShowed := false }]) := by
  have h := extractionNode_eq_none selectionList hnode
  simp [UpdateInterfaceTraced, SelectionList.GetSingleActorInstance, h,
    setCaptureHeightEnabled, SelectionList.GetNumSelectedMotions, CreateWarningWidget,
    releaseFlagsWidget]

/-- The two shapes of a window that satisfies the panel invariant. -/
theorem PanelInv_cases (w : MotionExtractionWindow) (hinv : PanelInv w) :
    (∃ main ww link fw, Ptr.isLive fw = false ∧
      w = { mMainVerticalLayout := Ptr.live main, mWarningWidget := Ptr.live ww,
            mWarningSelectNodeLink := Ptr.live link, mFlagsWidget := fw,
            mCaptureHeight := Ptr.null, mWarningShowed := true }) ∨
    (∃ main link fw cb,
      w = { mMainVerticalLayout := Ptr.live main, mWarningWidget := Ptr.null,
            mWarningSelectNodeLink := link, mFlagsWidget := Ptr.live fw,
            mCaptureHeight := Ptr.live cb, mWarningShowed := false }) := by
  rcases w with ⟨main, ww, link, fw, ch, shown⟩
  rcases hinv with ⟨hmain, hW, hF⟩
  cases shown
  · obtain ⟨h1, h2, h3⟩ := hF rfl
    simp only at hmain h1 h2 h3
    subst h3
    cases main <;> cases fw <;> cases ch <;> simp [Ptr.isLive] at hmain h1 h2
    exact Or.inr ⟨_, _, _, _, rfl⟩
  · obtain ⟨h1, h2, h3, h4⟩ := hW rfl
    simp only at hmain h1 h2 h3 h4
    subst h3
    cases main <;> cases ww <;> cases link <;> simp [Ptr.isLive] at hmain h1 h2
    exact Or.inl ⟨_, _, _, fw, h4, rfl⟩

@[simp] theorem Ptr.isLive_live {α : Type} (a : α) : (Ptr.live a).isLive = true := rfl

@[simp] theorem Ptr.isLive_null {α : Type} : (Ptr.null : Ptr α).isLive = false := rfl

@[simp] theorem Ptr.isLive_dangling {α : Type} : (Ptr.dangling : Ptr α).isLive = false := rfl

/-- Running `UpdateInterface` with an extraction node, from any window that satisfies the panel
invariant: the call returns, the invariant holds again with the flags layout showed, the check
box is the one produced by `adjustCheckBox` from a box with the enabled state
`numSelectedMotions != 0`, and the layout steps are: none when the flags layout was showed,
release of the warning widget followed by construction of the flags widget otherwise. -/
theorem UpdateInterfaceTraced_flags (w : MotionExtractionWindow)
    (selectionList : SelectionList) (node : Node) (hinv : PanelInv w)
    (hnode : selectionList.extractionNode = some node) :
    ∃ w' steps cb, UpdateInterfaceTraced w selectionList = some (w', steps) ∧
      PanelInv w' ∧ w'.mWarningShowed = false ∧
      w'.mCaptureHeight = Ptr.live
        (adjustCheckBox cb selectionList.motions.length (captureHeightScan selectionList)) ∧
      cb.enabled = (selectionList.motions.length != 0) ∧
      steps.map (fun s => (warningLive s, flagsLive s))
        = (if w.mWarningShowed = true then [(false, false), (false, true)] else []) := by
  rcases PanelInv_cases w hinv with ⟨main, ww, link, fw, hfw, rfl⟩ | ⟨main, link, fw, cb, rfl⟩
  · refine ⟨_, _, _, UpdateInterfaceTraced_flags_switch main ww link fw selectionList node hnode,
      ?_, rfl, rfl, rfl, ?_⟩
    · simp [PanelInv]
    · simp [warningLive, flagsLive, hfw]
  · refine ⟨_, _, _, UpdateInterfaceTraced_flags_showed main link fw cb selectionList node hnode,
      ?_, rfl, rfl, rfl, ?_⟩
    · simp [PanelInv]
    · simp

/-- Running `UpdateInterface` without extraction node, from any window that satisfies the panel
invariant: the call returns, the invariant holds again with the warning layout showed, the
link is enabled exactly when there is a single actor instance, and the layout steps are: none
when the warning layout was showed, construction of the warning widget followed by release of
the flags widget otherwise. -/
theorem UpdateInterfaceTraced_warning (w : MotionExtractionWindow)
    (selectionList : SelectionList) (hinv : PanelInv w)
    (hnode : selectionList.extractionNode = none) :
    ∃ w' steps link, UpdateInterfaceTraced w selectionList = some (w', steps) ∧
      PanelInv w' ∧ w'.mWarningShowed = true ∧
      w'.mWarningSelectNodeLink = Ptr.live link ∧
      link.enabled = selectionList.singleActorInstance.isSome ∧
      steps.map (fun s => (warningLive s, flagsLive s))
        = (if w.mWarningShowed = true then [] else [(true, true), (true, false)]) := by
  rcases PanelInv_cases w hinv with ⟨main, ww, link, fw, hfw, rfl⟩ | ⟨main, link, fw, cb, rfl⟩
  · refine ⟨_, _, _, UpdateInterfaceTraced_warning_showed main ww link fw selectionList hnode,
      ?_, rfl, rfl, rfl, ?_⟩
    · simp [PanelInv, hfw]
    · simp
  · refine ⟨_, _, _, UpdateInterfaceTraced_warning_switch main link fw cb selectionList hnode,
      ?_, rfl, rfl, rfl, ?_⟩
    · simp [PanelInv]
    · simp [warningLive, flagsLive]

theorem UpdateInterface_eq (w w' : MotionExtractionWindow) (selectionList : SelectionList)
    (steps : List MotionExtractionWindow)
    (h : UpdateInterfaceTraced w selectionList = some (w', steps)) :
    UpdateInterface w selectionList = some w' := by
  simp [UpdateInterface, h]

/-- The layout that is live alone in a window satisfying the panel invariant. -/
theorem activeLayout_of_PanelInv (w : MotionExtractionWindow) (hinv : PanelInv w) :
    activeLayout w = some (if w.mWarningShowed = true then Layout.Warning else Layout.Flags) := by
  rcases PanelInv_cases w hinv with ⟨main, ww, link, fw, hfw, rfl⟩ | ⟨main, link, fw, cb, rfl⟩
  · simp [activeLayout, warningLive, flagsLive, hfw]
  · simp [activeLayout, warningLive, flagsLive]

/-- The check box of `UpdateInterface` with an extraction node, in terms of the scan. -/
theorem UpdateInterface_checkBox (w : MotionExtractionWindow)
    (selectionList : SelectionList) (node : Node) (hinv : PanelInv w)
    (hnode : selectionList.extractionNode = some node) :
    ∃ w' cb, UpdateInterface w selectionList = some w' ∧
      w'.mCaptureHeight = Ptr.live cb ∧
      cb.enabled = (selectionList.motions.length != 0) ∧
      cb.tristate = (decide (selectionList.motions.length > 1)
        && !(captureHeightScan selectionList).allCaptureHeightEqual) ∧
      cb.checkState =
        (if selectionList.motions.length > 1 then
          if (captureHeightScan selectionList).allCaptureHeightEqual = true then
            if (captureHeightScan selectionList).curCaptureHeight = true then CheckState.Checked
            else CheckState.Unchecked
          else CheckState.PartiallyChecked
        else if (captureHeightScan selectionList).numCaptureHeight > 0 then CheckState.Checked
          else CheckState.Unchecked) := by
  obtain ⟨w', steps, cb, hrun, -, -, hcb, hen, -⟩ :=
    UpdateInterfaceTraced_flags w selectionList node hinv hnode
  obtain ⟨h1, -, h3, h4⟩ :=
    adjustCheckBox_spec cb selectionList.motions.length (captureHeightScan selectionList)
  exact ⟨w', _, UpdateInterface_eq w w' selectionList steps hrun, hcb, h1.trans hen, h3, h4⟩

/-- Totality: `UpdateInterface` is total on windows satisfying the panel invariant and preserves it. -/
theorem PanelInv_UpdateInterface (w : MotionExtractionWindow) (selectionList : SelectionList)
    (hinv : PanelInv w) :
    ∃ w', UpdateInterface w selectionList = some w' ∧ PanelInv w' := by
  cases hnode : selectionList.extractionNode with
  | none =>
    obtain ⟨w', steps, -, h, hinv', -⟩ :=
      UpdateInterfaceTraced_warning w selectionList hinv hnode
    exact ⟨w', UpdateInterface_eq w w' _ steps h, hinv'⟩
  | some node =>
    obtain ⟨w', steps, -, h, hinv', -⟩ :=
      UpdateInterfaceTraced_flags w selectionList node hinv hnode
    exact ⟨w', UpdateInterface_eq w w' _ steps h, hinv'⟩

/-- Running `Init` on a freshly constructed window returns a window satisfying the panel invariant,
whatever the indeterminate initial value of `mFlagsWidget`. -/
theorem PanelInv_Init (flagsWidgetIsNull : Bool) (selectionList : SelectionList) :
    ∃ w, Init (MotionExtractionWindow.construct flagsWidgetIsNull) selectionList = some w ∧
      PanelInv w := by
  have hinv : PanelInv
      { mMainVerticalLayout := Ptr.live { margin := 0, spacing := 0 },
        mWarningWidget := Ptr.live { minimumHeight := MOTIONEXTRACTIONWINDOW_HEIGHT,
                                     maximumHeight := MOTIONEXTRACTIONWINDOW_HEIGHT },
        mWarningSelectNodeLink :=
          Ptr.live { text := "Click here to setup the Motion Extraction node", enabled := true },
        mFlagsWidget := if flagsWidgetIsNull = true then Ptr.null else Ptr.dangling,
        mCaptureHeight := Ptr.null,
        mWarningShowed := true } := by
    cases flagsWidgetIsNull <;> simp [PanelInv]
  obtain ⟨w', hrun, hinv'⟩ := PanelInv_UpdateInterface _ selectionList hinv
  refine ⟨w', ?_, hinv'⟩
  rw [← hrun]
  simp [Init, MotionExtractionWindow.construct, CreateWarningWidget]

/-! ## The layout switch -/

/-- C2, as stated, fails in the direction Flags to Warning: on a window that shows the flags
layout, `UpdateInterface` for a selection without extraction node first constructs the warning
widget, so that after the first step both layouts are live, and only then releases the flags
widget. -/
theorem C2_flags_to_warning_counterexample :
    (UpdateInterfaceTraced flagsWindow noSelection).map
        (fun r => r.2.map (fun s => (warningLive s, flagsLive s)))
      = some [(true, true), (true, false)] := by
  decide

/-- C2, amended: from a window satisfying the panel invariant, `UpdateInterface` returns with
exactly one layout live, the one the extraction node asks for. A call that switches from
Warning to Flags first releases the warning widget (no layout live) and then constructs the
flags widget; a call that switches from Flags to Warning first constructs the warning widget
(both layouts live) and then releases the flags widget; a call that does not switch
constructs and releases nothing. -/
theorem C2_layout_switch_order (w : MotionExtractionWindow) (selectionList : SelectionList)
    (hinv : PanelInv w) :
    ∃ w' steps, UpdateInterfaceTraced w selectionList = some (w', steps) ∧
      activeLayout w'
        = some (if selectionList.extractionNode.isSome = true then Layout.Flags
                else Layout.Warning) ∧
      steps.map (fun s => (warningLive s, flagsLive s))
        = (if w.mWarningShowed = true then
            if selectionList.extractionNode.isSome = true then [(false, false), (false, true)]
            else []
          else
            if selectionList.extractionNode.isSome = true then []
            else [(true, true), (true, false)]) := by
  cases hnode : selectionList.extractionNode with
  | none =>
    obtain ⟨w', steps, link, hrun, hinv', hshow, -, -, hsteps⟩ :=
      UpdateInterfaceTraced_warning w selectionList hinv hnode
    refine ⟨w', steps, hrun, ?_, ?_⟩
    · rw [activeLayout_of_PanelInv w' hinv', hshow]
      rfl
    · rw [hsteps]
      by_cases hs : w.mWarningShowed = true <;> simp [hs]
  | some node =>
    obtain ⟨w', steps, cb, hrun, hinv', hshow, -, -, hsteps⟩ :=
      UpdateInterfaceTraced_flags w selectionList node hinv hnode
    refine ⟨w', steps, hrun, ?_, ?_⟩
    · rw [activeLayout_of_PanelInv w' hinv', hshow]
      rfl
    · rw [hsteps]
      by_cases hs : w.mWarningShowed = true <;> simp [hs]

/-- Witness for C2: the switch from the flags layout to the warning layout. -/
theorem C2_layout_switch_order_witness :
    ∃ w' steps, UpdateInterfaceTraced flagsWindow noSelection = some (w', steps) ∧
      activeLayout w'
        = some (if noSelection.extractionNode.isSome = true then Layout.Flags
                else Layout.Warning) ∧
      steps.map (fun s => (warningLive s, flagsLive s))
        = (if flagsWindow.mWarningShowed = true then
            if noSelection.extractionNode.isSome = true then [(false, false), (false, true)]
            else []
          else
            if noSelection.extractionNode.isSome = true then []
            else [(true, true), (true, false)]) :=
  C2_layout_switch_order flagsWindow noSelection (by decide)

/-! ## The check box after `UpdateInterface` -/

/-- C6: with an extraction node, for a selection of two or more motions among which two
differ in the capture-height flag, `UpdateInterface` returns and leaves the check box with
tristate enabled and in the state `PartiallyChecked`. -/
theorem C6_differing_flags_partially_checked (w : MotionExtractionWindow)
    (selectionList : SelectionList) (node : Node) (hinv : PanelInv w)
    (hnode : selectionList.extractionNode = some node)
    (hlen : 2 ≤ selectionList.motions.length)
    (hdiff : ∃ a ∈ selectionList.motions, ∃ b ∈ selectionList.motions,
      a.captureHeight ≠ b.captureHeight) :
    ∃ w' cb, UpdateInterface w selectionList = some w' ∧
      w'.mCaptureHeight = Ptr.live cb ∧
      cb.tristate = true ∧
      cb.checkState = CheckState.PartiallyChecked := by
  obtain ⟨w', cb, hrun, hcb, -, htri, hstate⟩ :=
    UpdateInterface_checkBox w selectionList node hinv hnode
  have hne : (captureHeightScan selectionList).allCaptureHeightEqual = false := by
    cases hall : (captureHeightScan selectionList).allCaptureHeightEqual with
    | false => rfl
    | true =>
      obtain ⟨a, ha, b, hb, hab⟩ := hdiff
      exact absurd ((scan_allEqual_iff selectionList).mp hall a ha b hb) hab
  have hgt : selectionList.motions.length > 1 := hlen
  refine ⟨w', cb, hrun, hcb, ?_, ?_⟩
  · rw [htri, hne]
    simp [hgt]
  · rw [hstate, hne]
    simp [hgt]

/-- Witness for C6: the example selection (flags set and clear) on the flags window. -/
theorem C6_differing_flags_partially_checked_witness :
    ∃ w' cb, UpdateInterface flagsWindow exampleSelection = some w' ∧
      w'.mCaptureHeight = Ptr.live cb ∧
      cb.tristate = true ∧
      cb.checkState = CheckState.PartiallyChecked :=
  C6_differing_flags_partially_checked flagsWindow exampleSelection { name := "root" }
    (by decide) rfl (by decide)
    ⟨_, List.mem_cons_self _ _, _, List.mem_cons_of_mem _ (List.mem_cons_self _ _), by decide⟩

/-- C7: with an extraction node, for a selection of two or more motions whose capture-height
flags all equal `v`, `UpdateInterface` returns and leaves the check box `Checked` when `v` is
true and `Unchecked` when `v` is false, with tristate disabled. -/
theorem C7_equal_flags_two_state (w : MotionExtractionWindow)
    (selectionList : SelectionList) (node : Node) (v : Bool) (hinv : PanelInv w)
    (hnode : selectionList.extractionNode = some node)
    (hlen : 2 ≤ selectionList.motions.length)
    (hall : ∀ m ∈ selectionList.motions, m.captureHeight = v) :
    ∃ w' cb, UpdateInterface w selectionList = some w' ∧
      w'.mCaptureHeight = Ptr.live cb ∧
      cb.checkState = (if v = true then CheckState.Checked else CheckState.Unchecked) ∧
      cb.tristate = false := by
  obtain ⟨w', cb, hrun, hcb, -, htri, hstate⟩ :=
    UpdateInterface_checkBox w selectionList node hinv hnode
  have heq : (captureHeightScan selectionList).allCaptureHeightEqual = true :=
    (scan_allEqual_iff selectionList).mpr
      (fun a ha b hb => (hall a ha).trans (hall b hb).symm)
  have hne : selectionList.motions ≠ [] := by
    intro h
    rw [h] at hlen
    simp at hlen
  have hcur := scan_cur_of_all selectionList v hne hall
  have hgt : selectionList.motions.length > 1 := hlen
  refine ⟨w', cb, hrun, hcb, ?_, ?_⟩
  · rw [hstate, heq, hcur]
    simp [hgt]
  · rw [htri, heq]
    simp

/-- Witness for C7: two motions with the flag set, on the warning window. -/
theorem C7_equal_flags_two_state_witness :
    ∃ w' cb, UpdateInterface warningWindow agreeingSelection = some w' ∧
      w'.mCaptureHeight = Ptr.live cb ∧
      cb.checkState = (if true = true then CheckState.Checked else CheckState.Unchecked) ∧
      cb.tristate = false :=
  C7_equal_flags_two_state warningWindow agreeingSelection { name := "root" } true
    (by decide) rfl (by decide) (by decide)

/-- C8: with an extraction node, for a selection of exactly one motion, `UpdateInterface`
returns and leaves the check box `Checked` exactly when the capture-height bit of that motion
is set and `Unchecked` exactly when it is clear; the box is enabled and tristate is
disabled. -/
theorem C8_single_item_checkbox (w : MotionExtractionWindow)
    (selectionList : SelectionList) (node : Node) (m : Motion) (hinv : PanelInv w)
    (hnode : selectionList.extractionNode = some node)
    (hsel : selectionList.motions = [m]) :
    ∃ w' cb, UpdateInterface w selectionList = some w' ∧
      w'.mCaptureHeight = Ptr.live cb ∧
      (cb.checkState = CheckState.Checked
        ↔ (m.mExtractionFlags &&& MOTIONEXTRACT_CAPTURE_Z) ≠ 0) ∧
      (cb.checkState = CheckState.Unchecked
        ↔ (m.mExtractionFlags &&& MOTIONEXTRACT_CAPTURE_Z) = 0) ∧
      cb.enabled = true ∧
      cb.tristate = false := by
  obtain ⟨w', cb, hrun, hcb, hen, htri, hstate⟩ :=
    UpdateInterface_checkBox w selectionList node hinv hnode
  rw [scan_single selectionList m hsel] at htri hstate
  rw [hsel] at hen htri hstate
  refine ⟨w', cb, hrun, hcb, ?_, ?_, ?_, ?_⟩
  · rw [hstate]
    by_cases hm : (m.mExtractionFlags &&& MOTIONEXTRACT_CAPTURE_Z) = 0 <;>
      simp [Motion.captureHeight, hm]
  · rw [hstate]
    by_cases hm : (m.mExtractionFlags &&& MOTIONEXTRACT_CAPTURE_Z) = 0 <;>
      simp [Motion.captureHeight, hm]
  · rw [hen]
    rfl
  · rw [htri]
    rfl

/-- Witness for C8: one motion with the flag set, on the warning window. -/
theorem C8_single_item_checkbox_witness :
    ∃ w' cb, UpdateInterface warningWindow singleSelection = some w' ∧
      w'.mCaptureHeight = Ptr.live cb ∧
      (cb.checkState = CheckState.Checked
        ↔ ((1 : Nat) &&& MOTIONEXTRACT_CAPTURE_Z) ≠ 0) ∧
      (cb.checkState = CheckState.Unchecked
        ↔ ((1 : Nat) &&& MOTIONEXTRACT_CAPTURE_Z) = 0) ∧
      cb.enabled = true ∧
      cb.tristate = false :=
  C8_single_item_checkbox warningWindow singleSelection { name := "root" }
    { mID := 1, mType := SkeletalMotion.TYPE_ID, mExtractionFlags := 1 } (by decide) rfl rfl

/-- C9: for a selection without motions, from a window satisfying the panel invariant
(whichever layout it shows), `UpdateInterface` returns; the check box pointer is then either
null or points at a live, disabled check box; and the layout that is live afterwards is Flags
when there is a single actor instance whose actor has an extraction node and Warning
otherwise, with `mWarningShowed` set accordingly. -/
theorem C9_empty_selection (w : MotionExtractionWindow) (selectionList : SelectionList)
    (hinv : PanelInv w) (hsel : selectionList.motions = []) :
    ∃ w', UpdateInterface w selectionList = some w' ∧
      w'.mCaptureHeight ≠ Ptr.dangling ∧
      (∀ cb, w'.mCaptureHeight = Ptr.live cb → cb.enabled = false) ∧
      activeLayout w'
        = some (if selectionList.extractionNode.isSome = true then Layout.Flags
                else Layout.Warning) ∧
      w'.mWarningShowed = !selectionList.extractionNode.isSome := by
  cases hnode : selectionList.extractionNode with
  | none =>
    obtain ⟨w', steps, link, hrun, hinv', hshow, -, -, -⟩ :=
      UpdateInterfaceTraced_warning w selectionList hinv hnode
    have hnull : w'.mCaptureHeight = Ptr.null := (hinv'.2.1 hshow).2.2.1
    refine ⟨w', UpdateInterface_eq w w' selectionList steps hrun, ?_, ?_, ?_, ?_⟩
    · rw [hnull]
      intro h
      cases h
    · intro cb h
      rw [hnull] at h
      cases h
    · rw [activeLayout_of_PanelInv w' hinv', hshow]
      rfl
    · rw [hshow]
      rfl
  | some node =>
    obtain ⟨w', steps, cb, hrun, hinv', hshow, hcb, hen, -⟩ :=
      UpdateInterfaceTraced_flags w selectionList node hinv hnode
    refine ⟨w', UpdateInterface_eq w w' selectionList steps hrun, ?_, ?_, ?_, ?_⟩
    · rw [hcb]
      intro h
      cases h
    · intro cb' h
      rw [hcb] at h
      cases h
      rw [(adjustCheckBox_spec cb _ _).1, hen, hsel]
      rfl
    · rw [activeLayout_of_PanelInv w' hinv', hshow]
      rfl
    · rw [hshow]
      rfl

/-- Witness for C9: no motion selected, an actor with extraction node, starting from the
warning layout. -/
theorem C9_empty_selection_witness :
    ∃ w', UpdateInterface warningWindow emptySelection = some w' ∧
      w'.mCaptureHeight ≠ Ptr.dangling ∧
      (∀ cb, w'.mCaptureHeight = Ptr.live cb → cb.enabled = false) ∧
      activeLayout w'
        = some (if emptySelection.extractionNode.isSome = true then Layout.Flags
                else Layout.Warning) ∧
      w'.mWarningShowed = !emptySelection.extractionNode.isSome :=
  C9_empty_selection warningWindow emptySelection (by decide) rfl

/-! ## The command callbacks -/

/-- C10, as stated, fails: for a command line on which the filter predicate is false, the
AdjustActor callback does run `UpdateInterface` (once, returning `true`), while the Select
callback returns `true` without running it; and when the plugin is not active the
ClearSelection callback returns `false` without running it. -/
theorem C10_callback_filter_counterexample :
    hasActorID bareCommandLine = false ∧
    (CommandAdjustActorCallback.Execute activeStudio bareCommandLine).map
        (fun r => (r.result, r.updateInterfaceCalls)) = some (true, 1) ∧
    (CommandSelectCallback.Execute hasActorID activeStudio bareCommandLine).map
        (fun r => (r.result, r.updateInterfaceCalls)) = some (true, 0) ∧
    (CommandClearSelectionCallback.Execute inactiveStudio bareCommandLine).map
        (fun r => (r.result, r.updateInterfaceCalls)) = some (false, 0) := by
  decide

/-- C10, amended: while the plugin is active (its window satisfying the panel invariant), the
ClearSelection and AdjustActor callbacks run `UpdateInterface` once and return `true` on every
execute and undo, whatever the command line; the Select and Unselect callbacks do so exactly
when `CheckIfHasActorSelectionParameter` holds of the command line, and otherwise return `true`
without running `UpdateInterface` and without touching the window. -/
theorem C10_callbacks_reconcile (checkIfHasActorSelectionParameter : CommandLine → Bool)
    (s : Studio) (commandLine : CommandLine) (w : MotionExtractionWindow)
    (hw : s.activeMotionExtractionWindow = some w) (hinv : PanelInv w) :
    ∃ w', UpdateInterface w s.currentSelection = some w' ∧
      CommandClearSelectionCallback.Execute s commandLine
        = some { result := true, studio := { s with activeMotionExtractionWindow := some w' },
                 updateInterfaceCalls := 1 } ∧
      CommandClearSelectionCallback.Undo s commandLine
        = CommandClearSelectionCallback.Execute s commandLine ∧
      CommandAdjustActorCallback.Execute s commandLine
        = CommandClearSelectionCallback.Execute s commandLine ∧
      CommandAdjustActorCallback.Undo s commandLine
        = CommandClearSelectionCallback.Execute s commandLine ∧
      (checkIfHasActorSelectionParameter commandLine = true →
        CommandSelectCallback.Execute checkIfHasActorSelectionParameter s commandLine
          = CommandClearSelectionCallback.Execute s commandLine ∧
        CommandSelectCallback.Undo checkIfHasActorSelectionParameter s commandLine
          = CommandClearSelectionCallback.Execute s commandLine ∧
        CommandUnselectCallback.Execute checkIfHasActorSelectionParameter s commandLine
          = CommandClearSelectionCallback.Execute s commandLine ∧
        CommandUnselectCallback.Undo checkIfHasActorSelectionParameter s commandLine
          = CommandClearSelectionCallback.Execute s commandLine) ∧
      (checkIfHasActorSelectionParameter commandLine = false →
        CommandSelectCallback.Execute checkIfHasActorSelectionParameter s commandLine
          = some { result := true, studio := s, updateInterfaceCalls := 0 } ∧
        CommandSelectCallback.Undo checkIfHasActorSelectionParameter s commandLine
          = some { result := true, studio := s, updateInterfaceCalls := 0 } ∧
        CommandUnselectCallback.Execute checkIfHasActorSelectionParameter s commandLine
          = some { result := true, studio := s, updateInterfaceCalls := 0 } ∧
        CommandUnselectCallback.Undo checkIfHasActorSelectionParameter s commandLine
          = some { result := true, studio := s, updateInterfaceCalls := 0 }) := by
  have hrun : ∃ w', UpdateInterface w s.currentSelection = some w' := by
    cases hnode : s.currentSelection.extractionNode with
    | none =>
      obtain ⟨w', steps, -, h, -⟩ := UpdateInterfaceTraced_warning w s.currentSelection hinv hnode
      exact ⟨w', UpdateInterface_eq w w' _ steps h⟩
    | some node =>
      obtain ⟨w', steps, -, h, -⟩ :=
        UpdateInterfaceTraced_flags w s.currentSelection node hinv hnode
      exact ⟨w', UpdateInterface_eq w w' _ steps h⟩
  obtain ⟨w', hw'⟩ := hrun
  refine ⟨w', hw', ?_, rfl, rfl, rfl, ?_, ?_⟩
  · simp [CommandClearSelectionCallback.Execute, UpdateInterfaceMotionExtractionWindow, hw, hw']
  · intro hc
    simp [CommandSelectCallback.Execute, CommandSelectCallback.Undo,
      CommandUnselectCallback.Execute, CommandUnselectCallback.Undo,
      CommandClearSelectionCallback.Execute, hc]
  · intro hc
    simp [CommandSelectCallback.Execute, CommandSelectCallback.Undo,
      CommandUnselectCallback.Execute, CommandUnselectCallback.Undo, hc]

/-- Witness for C10: the active plugin showing the flags layout, and a command line without
parameters. -/
theorem C10_callbacks_reconcile_witness :
    ∃ w', UpdateInterface flagsWindow activeStudio.currentSelection = some w' ∧
      CommandClearSelectionCallback.Execute activeStudio bareCommandLine
        = some { result := true,
                 studio := { activeStudio with activeMotionExtractionWindow := some w' },
                 updateInterfaceCalls := 1 } ∧
      CommandClearSelectionCallback.Undo activeStudio bareCommandLine
        = CommandClearSelectionCallback.Execute activeStudio bareCommandLine ∧
      CommandAdjustActorCallback.Execute activeStudio bareCommandLine
        = CommandClearSelectionCallback.Execute activeStudio bareCommandLine ∧
      CommandAdjustActorCallback.Undo activeStudio bareCommandLine
        = CommandClearSelectionCallback.Execute activeStudio bareCommandLine ∧
      (hasActorID bareCommandLine = true →
        CommandSelectCallback.Execute hasActorID activeStudio bareCommandLine
          = CommandClearSelectionCallback.Execute activeStudio bareCommandLine ∧
        CommandSelectCallback.Undo hasActorID activeStudio bareCommandLine
          = CommandClearSelectionCallback.Execute activeStudio bareCommandLine ∧
        CommandUnselectCallback.Execute hasActorID activeStudio bareCommandLine
          = CommandClearSelectionCallback.Execute activeStudio bareCommandLine ∧
        CommandUnselectCallback.Undo hasActorID activeStudio bareCommandLine
          = CommandClearSelectionCallback.Execute activeStudio bareCommandLine) ∧
      (hasActorID bareCommandLine = false →
        CommandSelectCallback.Execute hasActorID activeStudio bareCommandLine
          = some { result := true, studio := activeStudio, updateInterfaceCalls := 0 } ∧
        CommandSelectCallback.Undo hasActorID activeStudio bareCommandLine
          = some { result := true, studio := activeStudio, updateInterfaceCalls := 0 } ∧
        CommandUnselectCallback.Execute hasActorID activeStudio bareCommandLine
          = some { result := true, studio := activeStudio, updateInterfaceCalls := 0 } ∧
        CommandUnselectCallback.Undo hasActorID activeStudio bareCommandLine
          = some { result := true, studio := activeStudio, updateInterfaceCalls := 0 }) :=
  C10_callbacks_reconcile hasActorID activeStudio bareCommandLine flagsWindow rfl (by decide)

/-! ## The command batch of `OnMotionExtractionNodeSelected` -/

theorem formatS_of_no_NUL (n : String) (h : ∀ c ∈ n.data, c ≠ Char.ofNat 0) :
    formatS n = n := by
  unfold formatS
  have ht : n.data.takeWhile (fun c => c != Char.ofNat 0) = n.data := by
    rw [List.takeWhile_eq_self_iff]
    intro c hc
    simpa using h c hc
  rw [ht]

/-- Whatever the picker and the executor answer, the slot submits exactly one group with
exactly one command. -/
theorem OnMotionExtractionNodeSelected_submits
    (GetNodeName : List SelectionItem → String × Nat)
    (executor : CommandGroup → Bool × String) (selection : List SelectionItem) :
    submittedGroups (OnMotionExtractionNodeSelected GetNodeName executor selection)
      = [{ name := "Adjust motion extraction node",
           commands :=
             [adjustActorCommand (GetNodeName selection).2 (GetNodeName selection).1] }] := by
  unfold OnMotionExtractionNodeSelected
  simp only [CommandGroup.AddCommandString, List.nil_append]
  split <;> rfl

/-- C11, as stated, fails: when the node picker hands back the actor id `4294967295` (the
invalid index) with the empty name, the command is
`AdjustActor -actorID -1 -motionExtractionNodeName ""`, not the one with the id in decimal. -/
theorem C11_large_actor_id_counterexample :
    pickSingle [] = ("", 4294967295) ∧
    submittedGroups (OnMotionExtractionNodeSelected pickSingle acceptAll [])
      = [{ name := "Adjust motion extraction node",
           commands := ["AdjustActor -actorID -1 -motionExtractionNodeName \"\""] }] ∧
    submittedGroups (OnMotionExtractionNodeSelected pickSingle acceptAll [])
      ≠ [{ name := "Adjust motion extraction node",
           commands := ["AdjustActor -actorID 4294967295 -motionExtractionNodeName \"\""] }] := by
  decide

/-- C11, amended: for every 32-bit actor id `a` and every node name `n` without NUL that
`GetNodeName` returns, the slot submits exactly one group, named
`Adjust motion extraction node`, holding exactly one command:
`AdjustActor -actorID <a> -motionExtractionNodeName "<n>"`, where `<a>` is the id in decimal
when it is below `2^31` and the negative number `a - 2^32` otherwise, and `<n>` is the name
verbatim. -/
theorem C11_node_change_batch (GetNodeName : List SelectionItem → String × Nat)
    (executor : CommandGroup → Bool × String) (selection : List SelectionItem)
    (hid : (GetNodeName selection).2 < 2 ^ 32)
    (hname : ∀ c ∈ (GetNodeName selection).1.data, c ≠ Char.ofNat 0) :
    submittedGroups (OnMotionExtractionNodeSelected GetNodeName executor selection)
      = [{ name := "Adjust motion extraction node",
           commands := ["AdjustActor -actorID "
             ++ (if (GetNodeName selection).2 < 2 ^ 31 then toString (GetNodeName selection).2
                 else "-" ++ toString (2 ^ 32 - (GetNodeName selection).2))
             ++ " -motionExtractionNodeName \"" ++ (GetNodeName selection).1 ++ "\""] }] := by
  have hfmt : formatI (GetNodeName selection).2
      = (if (GetNodeName selection).2 < 2 ^ 31 then toString (GetNodeName selection).2
         else "-" ++ toString (2 ^ 32 - (GetNodeName selection).2)) := by
    by_cases hlt : (GetNodeName selection).2 < 2 ^ 31
    · rw [formatI_of_lt _ hlt, if_pos hlt]
    · rw [formatI_of_ge _ (by omega) hid, if_neg hlt]
  rw [OnMotionExtractionNodeSelected_submits, adjustActorCommand, hfmt,
    formatS_of_no_NUL _ hname]

/-- Witness for C11: the picker returns the node `Bip01` of actor 3. -/
theorem C11_node_change_batch_witness :
    submittedGroups
        (OnMotionExtractionNodeSelected pickSingle acceptAll
          [{ mActorInstanceID := 3, mNodeName := "Bip01" }])
      = [{ name := "Adjust motion extraction node",
           commands := ["AdjustActor -actorID 3 -motionExtractionNodeName \"Bip01\""] }] := by
  have h := C11_node_change_batch pickSingle acceptAll
    [{ mActorInstanceID := 3, mNodeName := "Bip01" }] (by decide) (by decide)
  rw [h]
  decide

/-! ## The agreement scan against global equality -/

theorem allFlagsEqualSpec_iff (motions : List Motion) :
    allFlagsEqualSpec motions = true
      ↔ ∀ a ∈ motions, ∀ b ∈ motions, a.captureHeight = b.captureHeight := by
  simp [allFlagsEqualSpec, List.all_eq_true]

/-- C13: the adjacent-pair loop of `UpdateInterface` computes global equality: for every
selection, `allCaptureHeightEqual` after the loop equals the spec's "all items have the same
capture-height flag value", and is true exactly when any two selected motions agree; on the
pattern true, false, true it is false. -/
theorem C13_adjacent_scan_is_global_equality (selectionList : SelectionList) :
    (captureHeightScan selectionList).allCaptureHeightEqual
        = allFlagsEqualSpec selectionList.motions ∧
    ((captureHeightScan selectionList).allCaptureHeightEqual = true
      ↔ ∀ a ∈ selectionList.motions, ∀ b ∈ selectionList.motions,
          a.captureHeight = b.captureHeight) ∧
    (captureHeightScan trueFalseTrueSelection).allCaptureHeightEqual = false := by
  refine ⟨?_, scan_allEqual_iff selectionList, by decide⟩
  have h1 := scan_allEqual_iff selectionList
  have h2 := allFlagsEqualSpec_iff selectionList.motions
  cases hs : (captureHeightScan selectionList).allCaptureHeightEqual with
  | true =>
    exact (h2.mpr (h1.mp hs)).symm
  | false =>
    cases ha : allFlagsEqualSpec selectionList.motions with
    | false => rfl
    | true =>
      rw [h1.mpr (h2.mp ha)] at hs
      cases hs

/-! ## The panel invariant along the life of the window -/

/-- Any number of `UpdateInterface` calls from a window satisfying the panel invariant return
and end in a window satisfying it. -/
theorem PanelInv_UpdateInterfaceAll (later : List SelectionList) (w : MotionExtractionWindow)
    (hinv : PanelInv w) :
    ∃ w', UpdateInterfaceAll w later = some w' ∧ PanelInv w' := by
  induction later generalizing w with
  | nil => exact ⟨w, rfl, hinv⟩
  | cons selectionList rest ih =>
    obtain ⟨w1, h1, hinv1⟩ := PanelInv_UpdateInterface w selectionList hinv
    obtain ⟨w2, h2, hinv2⟩ := ih w1 hinv1
    refine ⟨w2, ?_, hinv2⟩
    simp only [UpdateInterfaceAll, h1]
    exact h2

/-- C15: after `Init` and any sequence of later `UpdateInterface` calls (every call of the
sequence returning, that is, dereferencing no null or released pointer), `mWarningShowed` is
true exactly when the warning widget is live and `mCaptureHeight` is null, and false exactly
when the check box is live and `mWarningWidget` is null; the link used by the warning branch
is live whenever the warning is showed; the next call returns as well, and when the layout it
asks for is the one already showed it constructs and releases nothing. -/
theorem C15_panel_state_invariant (flagsWidgetIsNull : Bool) (first : SelectionList)
    (later : List SelectionList) :
    ∃ w, windowAfter flagsWidgetIsNull first later = some w ∧
      (w.mWarningShowed = true ↔ (w.mWarningWidget.isLive = true ∧ w.mCaptureHeight = Ptr.null)) ∧
      (w.mWarningShowed = false
        ↔ (w.mCaptureHeight.isLive = true ∧ w.mWarningWidget = Ptr.null)) ∧
      (w.mWarningShowed = true → w.mWarningSelectNodeLink.isLive = true) ∧
      (∀ next : SelectionList, ∃ w' steps,
        UpdateInterfaceTraced w next = some (w', steps) ∧
        (requiredLayout next
            = (if w.mWarningShowed = true then Layout.Warning else Layout.Flags) →
          steps = [])) := by
  obtain ⟨w0, hInit, hinv0⟩ := PanelInv_Init flagsWidgetIsNull first
  obtain ⟨w, hrun, hinv⟩ := PanelInv_UpdateInterfaceAll later w0 hinv0
  refine ⟨w, ?_, ?_, ?_, ?_, ?_⟩
  · simp only [windowAfter, hInit]
    exact hrun
  · rcases PanelInv_cases w hinv with ⟨_, _, _, _, _, rfl⟩ | ⟨_, _, _, _, rfl⟩ <;> simp
  · rcases PanelInv_cases w hinv with ⟨_, _, _, _, _, rfl⟩ | ⟨_, _, _, _, rfl⟩ <;> simp
  · rcases PanelInv_cases w hinv with ⟨_, _, _, _, _, rfl⟩ | ⟨_, _, _, _, rfl⟩ <;> simp
  · intro next
    cases hnode : next.extractionNode with
    | none =>
      obtain ⟨w', steps, -, h, -, -, -, -, hsteps⟩ :=
        UpdateInterfaceTraced_warning w next hinv hnode
      refine ⟨w', steps, h, ?_⟩
      intro hreq
      have hshow : w.mWarningShowed = true := by
        by_cases hs : w.mWarningShowed = true
        · exact hs
        · simp [requiredLayout, hnode, hs] at hreq
      simpa [hshow] using hsteps
    | some node =>
      obtain ⟨w', steps, -, h, -, -, -, -, hsteps⟩ :=
        UpdateInterfaceTraced_flags w next node hinv hnode
      refine ⟨w', steps, h, ?_⟩
      intro hreq
      have hshow : ¬ w.mWarningShowed = true := by
        intro hs
        simp [requiredLayout, hnode, hs] at hreq
      simpa [hshow] using hsteps

end EMStudio

namespace EMotionFX.Integration

/-! ## MotionEvent -/

theorem copiedChars_take (src : List Char) (n : Nat) (hlen : n ≤ src.length)
    (hnul : ∀ c ∈ src.take n, c ≠ NUL) : copiedChars src n = some (src.take n) := by
  induction src generalizing n with
  | nil =>
    have hn : n = 0 := by simpa using hlen
    subst hn
    rfl
  | cons c cs ih =>
    cases n with
    | zero => rfl
    | succ n =>
      have hc : c ≠ NUL := hnul c (by simp)
      have hrest : ∀ d ∈ cs.take n, d ≠ NUL := by
        intro d hd
        exact hnul d (by simp [hd])
      have hlen' : n ≤ cs.length := by simpa using hlen
      simp only [copiedChars, hc, if_false, ih n hlen' hrest, List.take_succ_cons]

/-- Reading the string back from an array that holds NUL-free characters followed by a NUL. -/
theorem takeWhile_terminated (cs rest : List Char) (h : ∀ c ∈ cs, c ≠ NUL) :
    (cs ++ NUL :: rest).takeWhile (fun c => c != NUL) = cs := by
  rw [List.takeWhile_append_of_pos (by intro c hc; simpa using h c hc)]
  simp

/-- C12: for an event whose array has its 64 elements, a source with at least `length`
readable characters and no NUL among the first `length`, `SetParameterString` returns; the
NUL-terminated string then stored is the first `min length 63` characters of the source (the
empty string when `length` is 0); the terminator is written at index `min length 63`, which
lies inside the array of 64 elements (whose size is unchanged); and no other member of the
event changes. -/
theorem C12_SetParameterString_truncates (e : MotionEvent) (str : List Char) (length : Nat)
    (hsize : e.m_parameterStorage.length = kMaxParameterStringLength + 1)
    (hlen : length ≤ str.length)
    (hnul : ∀ c ∈ str.take length, c ≠ NUL) :
    ∃ e', e.SetParameterString str length = some e' ∧
      e'.parameterString = str.take (min length 63) ∧
      (length = 0 → e'.parameterString = []) ∧
      min length 63 < 64 ∧
      e'.m_parameterStorage.length = 64 ∧
      e'.m_parameterStorage[min length 63]? = some NUL ∧
      e' = { e with m_parameterStorage := e'.m_parameterStorage } := by
  have h64 : e.m_parameterStorage.length = 64 := hsize
  have hk : kMaxParameterStringLength = 63 := rfl
  by_cases hzero : length = 0
  · subst hzero
    obtain ⟨c0, rest, hst⟩ : ∃ c0 rest, e.m_parameterStorage = c0 :: rest := by
      cases hs : e.m_parameterStorage with
      | nil => rw [hs] at h64; simp at h64
      | cons c0 rest => exact ⟨c0, rest, rfl⟩
    refine ⟨{ e with m_parameterStorage := e.m_parameterStorage.set 0 NUL }, ?_, ?_, ?_, ?_,
      ?_, ?_, rfl⟩
    · simp [MotionEvent.SetParameterString]
    · simp [MotionEvent.parameterString, hst]
    · intro _
      simp [MotionEvent.parameterString, hst]
    · omega
    · simp [h64]
    · simp [hst]
  · have hn : min length 63 < 64 := by omega
    have hn_len : min length 63 ≤ str.length := Nat.le_trans (Nat.min_le_left _ _) hlen
    have hn_nul : ∀ c ∈ str.take (min length 63), c ≠ NUL := by
      intro c hc
      have hsub : str.take (min length 63) ⊆ str.take length := by
        intro d hd
        have hpre : str.take (min length 63) <+: str.take length :=
          (List.take_prefix_take_left str (Nat.min_le_left length 63))
        exact hpre.subset hd
      exact hnul c (hsub hc)
    have hcopy := copiedChars_take str (min length 63) hn_len hn_nul
    have htake_len : (str.take (min length 63)).length = min length 63 := by
      rw [List.length_take]
      omega
    obtain ⟨d0, drest, hdrop⟩ :
        ∃ d0 drest, e.m_parameterStorage.drop (min length 63) = d0 :: drest := by
      cases hd : e.m_parameterStorage.drop (min length 63) with
      | nil =>
        have hl := congrArg List.length hd
        rw [List.length_drop, h64] at hl
        simp at hl
        omega
      | cons d0 drest => exact ⟨d0, drest, rfl⟩
    have hset : (str.take (min length 63) ++ e.m_parameterStorage.drop (min length 63)).set
        (min length 63) NUL = str.take (min length 63) ++ NUL :: drest := by
      rw [hdrop, List.set_append]
      simp [htake_len]
    have hrun : e.SetParameterString str length
        = some { e with m_parameterStorage := str.take (min length 63) ++ NUL :: drest } := by
      simp only [MotionEvent.SetParameterString, hzero, ne_eq, not_false_eq_true, if_true, hk,
        azstrncpy, h64, Nat.le_refl, hn, and_self, hcopy, hset]
    have hlen_out : (str.take (min length 63) ++ NUL :: drest).length = 64 := by
      have hl := congrArg List.length hdrop
      rw [List.length_drop, h64, List.length_cons] at hl
      rw [List.length_append, htake_len, List.length_cons]
      omega
    refine ⟨_, hrun, ?_, ?_, hn, hlen_out, ?_, rfl⟩
    · exact takeWhile_terminated _ _ hn_nul
    · intro h0
      exact absurd h0 hzero
    · have hidx : min length 63 = (str.take (min length 63)).length := htake_len.symm
      show (str.take (min length 63) ++ NUL :: drest)[min length 63]? = some NUL
      rw [List.getElem?_append_right (by omega)]
      simp [htake_len]

/-- Witness for C12: a source of 100 characters `a`, all of them offered; 63 are kept. -/
theorem C12_SetParameterString_truncates_witness :
    ∃ e', sampleEvent.SetParameterString (List.replicate 100 (Char.ofNat 97)) 100 = some e' ∧
      e'.parameterString = (List.replicate 100 (Char.ofNat 97)).take (min 100 63) ∧
      (100 = 0 → e'.parameterString = []) ∧
      min 100 63 < 64 ∧
      e'.m_parameterStorage.length = 64 ∧
      e'.m_parameterStorage[min 100 63]? = some NUL ∧
      e' = { sampleEvent with m_parameterStorage := e'.m_parameterStorage } :=
  C12_SetParameterString_truncates sampleEvent (List.replicate 100 (Char.ofNat 97)) 100
    (by decide) (by decide) (by decide)

/-- What the copy constructor does preserve: every member but `m_entityId` is taken from the
source, and `m_parameter` points at the copy's own array. -/
theorem copyConstruct_preserved (storageAddress : Address) (defaultEntityId : EntityId)
    (rhs : MotionEvent) :
    (MotionEvent.copyConstruct storageAddress defaultEntityId rhs)
      = { rhs with storageAddress := storageAddress,
                   m_entityId := defaultEntityId,
                   m_parameter := some storageAddress } ∧
    (MotionEvent.copyConstruct storageAddress defaultEntityId rhs).parameterString
      = rhs.parameterString ∧
    (MotionEvent.copyConstruct storageAddress defaultEntityId rhs).m_parameter
      = some (MotionEvent.copyConstruct storageAddress defaultEntityId rhs).storageAddress :=
  ⟨rfl, rfl, rfl⟩

/-- C14: the copy of an event whose entity id is 42 does not have that entity id: the copy
constructor leaves `m_entityId` out of its initialiser list, so the copy holds the
default-constructed id, whatever the source holds. -/
theorem C14_copy_loses_entity_id :
    sampleEvent.m_entityId = { m_id := 42 } ∧
    (MotionEvent.copyConstruct 5000 invalidEntityId sampleEvent).m_entityId = invalidEntityId ∧
    (MotionEvent.copyConstruct 5000 invalidEntityId sampleEvent).m_entityId
      ≠ sampleEvent.m_entityId := by
  decide

end EMotionFX.Integration
